import Mathlib

/-!
# go-Azure: a model of `main.go`

`main.go` is a sequential provisioning script.  Every effect it has goes through
a library it does not implement (the operating system, the SSH key helper, the
Azure identity package and the Azure resource-manager SDK).  The embedding below
keeps the program text of `main.go` and takes those libraries as a parameter
`Sdk σ`: a record of functions, one per library function the program calls,
typed after the Go signature of that function and threading a state `σ` of the
outside world.  Pointers that the program dereferences are `Option`s, and a
dereference of `none` (or an index into an empty slice) is a Go panic.
A library call returns its Go results or panics.  A method of a generated
armnetwork client that is called on a nil client panics when it first reads the
client, which is after it has checked that the resource-group name and the
resource name are not empty: `throughHandle` below.
-/

namespace GoAzure

/-! ## Go values -/

/-- A Go `error` value.  `response` is a `*azcore.ResponseError` (with its
`ErrorCode` field), `plain` is any error that neither is a response error nor
wraps another error, `wrap` is an error with an `Unwrap() error` method. -/
inductive GoError where
  | response (ErrorCode : String)
  | plain (msg : String)
  | wrap (msg : String) (inner : GoError)
  deriving DecidableEq, Repr

/-- The `errors.As(err, &errResponse)` of `findVnet` with
`errResponse : *azcore.ResponseError`: the first response error on the unwrap
chain of `err`, as its `ErrorCode`. -/
def errorsAsResponseError : GoError → Option String
  | .response code => some code
  | .plain _ => none
  | .wrap _ inner => errorsAsResponseError inner

/-- How a call of a Go function with results `(T, error)` ends: it returns the
value with a nil error, it returns an error, or it panics. -/
inductive Result (α : Type) where
  | ok (val : α)
  | fail (err : GoError)
  | panic
  deriving DecidableEq, Repr

/-- The `const location = "westus"` of line 19. -/
def location : String := "westus"

/-! ## SDK values the program builds and reads

Only the fields that `main.go` sets or reads are kept.  A field the program
dereferences is an `Option` (`none` is the nil pointer). -/

/-- An `azcore.TokenCredential`. -/
structure TokenCredential where
  session : String
  deriving DecidableEq, Repr

/-- The `*armnetwork.ClientFactory` of the package-level `networkClientFactory`. -/
structure ClientFactory where
  subscriptionID : String
  deriving DecidableEq, Repr

/-- An `armnetwork.VirtualNetworksClient`. -/
structure VirtualNetworksClient where
  subscriptionID : String
  deriving DecidableEq, Repr

/-- An `armnetwork.PublicIPAddressesClient`. -/
structure PublicIPAddressesClient where
  subscriptionID : String
  deriving DecidableEq, Repr

/-- An `armnetwork.SecurityGroupsClient`. -/
structure SecurityGroupsClient where
  subscriptionID : String
  deriving DecidableEq, Repr

/-- An `armnetwork.InterfacesClient`. -/
structure InterfacesClient where
  subscriptionID : String
  deriving DecidableEq, Repr

/-- A `*runtime.Poller[T]`: the handle of a submitted long-running operation. -/
structure Poller where
  operation : String
  deriving DecidableEq, Repr

/-- An `armresources.ResourceGroup`, as request (lines 94-96) and as the
response whose `Name` is dereferenced. -/
structure ResourceGroup where
  Name : Option String
  Location : Option String
  deriving DecidableEq, Repr

/-- An `armnetwork.Subnet`; `AddressPrefix` is `Properties.AddressPrefix`. -/
structure Subnet where
  ID : Option String
  Name : Option String
  AddressPrefix : Option String
  deriving DecidableEq, Repr

/-- An `armnetwork.VirtualNetworkPropertiesFormat`; `AddressPrefixes` is
`AddressSpace.AddressPrefixes`, `Subnets` is a slice of pointers. -/
structure VirtualNetworkPropertiesFormat where
  AddressPrefixes : List String
  Subnets : List (Option Subnet)
  deriving DecidableEq, Repr

/-- An `armnetwork.VirtualNetwork`, embedded in
`VirtualNetworksClientGetResponse` and
`VirtualNetworksClientCreateOrUpdateResponse`. -/
structure VirtualNetwork where
  Location : Option String
  Properties : Option VirtualNetworkPropertiesFormat
  deriving DecidableEq, Repr

/-- The zero value of `armnetwork.VirtualNetworksClientCreateOrUpdateResponse`
that `var vnetResp` (line 102) declares: every pointer field is nil. -/
def VirtualNetwork.zero : VirtualNetwork := ⟨none, none⟩

/-- The `armnetwork.IPVersion` constants. -/
inductive IPVersion where
  | IPv4 | IPv6
  deriving DecidableEq, Repr

/-- The `armnetwork.IPAllocationMethod` constants. -/
inductive IPAllocationMethod where
  | Dynamic | Static
  deriving DecidableEq, Repr

/-- The `armnetwork.PublicIPAddress` request of lines 156-163. -/
structure PublicIPAddress where
  Name : String
  Location : String
  PublicIPAddressVersion : IPVersion
  PublicIPAllocationMethod : IPAllocationMethod
  deriving DecidableEq, Repr

/-- The `armnetwork.SecurityRuleProtocol` constants. -/
inductive SecurityRuleProtocol where
  | Ah | Asterisk | Esp | Icmp | TCP | UDP
  deriving DecidableEq, Repr

/-- The `armnetwork.SecurityRuleAccess` constants. -/
inductive SecurityRuleAccess where
  | Allow | Deny
  deriving DecidableEq, Repr

/-- The `armnetwork.SecurityRuleDirection` constants. -/
inductive SecurityRuleDirection where
  | Inbound | Outbound
  deriving DecidableEq, Repr

/-- An `armnetwork.SecurityRule` with its `Properties` fields (lines 183-208);
`Priority` is an `int32`. -/
structure SecurityRule where
  Name : String
  Protocol : SecurityRuleProtocol
  SourceAddressPrefix : String
  SourcePortRange : String
  DestinationAddressPrefix : String
  DestinationPortRange : String
  Access : SecurityRuleAccess
  Direction : SecurityRuleDirection
  Priority : Int
  deriving DecidableEq, Repr

/-- The `armnetwork.SecurityGroup` request of lines 179-211. -/
structure SecurityGroup where
  Location : String
  SecurityRules : List SecurityRule
  deriving DecidableEq, Repr

/-- The one `armnetwork.InterfaceIPConfiguration` of lines 231-242. -/
structure InterfaceIPConfiguration where
  Name : String
  PrivateIPAllocationMethod : IPAllocationMethod
  SubnetID : String
  PublicIPAddressID : String
  deriving DecidableEq, Repr

/-- The `armnetwork.Interface` request of lines 227-248. -/
structure Interface where
  Location : String
  IPConfigurations : List InterfaceIPConfiguration
  NetworkSecurityGroupID : String
  deriving DecidableEq, Repr

/-- The `armcompute.VirtualMachine` request of lines 270-328, field by field;
the armcompute enumeration constants are kept by name. -/
structure VirtualMachine where
  Location : String
  IdentityType : String
  ImageOffer : String
  ImagePublisher : String
  ImageSKU : String
  ImageVersion : String
  OSDiskName : String
  OSDiskCreateOption : String
  OSDiskCaching : String
  StorageAccountType : String
  VMSize : String
  ComputerName : String
  AdminUsername : String
  DisablePasswordAuthentication : Bool
  SSHPublicKeyPath : String
  SSHPublicKeyData : Option String
  NetworkInterfaceIDs : List String
  deriving DecidableEq, Repr

/-- The response of a finished create operation on a public IP address, a
security group, a network interface or a virtual machine: the program reads its
`ID` only. -/
structure CreatedResource where
  ID : Option String
  deriving DecidableEq, Repr

/-! ## The libraries, as a parameter -/

/-- The library functions `main.go` calls, as they answer when they are called
on a client that exists.  A function that performs input or output takes the
state of the outside world and returns the new one.  The constructors
`NewResourceGroupsClient` (line 97) and `NewVirtualMachinesClient` (line 267)
are called on a factory that was just built and checked; the clients they return
are local variables and have no counterpart here. -/
structure Sdk (σ : Type) where
  /-- The function ssh.GenerateKeys: private and public key. -/
  sshGenerateKeys : σ → Result (String × String) × σ
  /-- The function os.WriteFile with name, data and permission bits. -/
  writeFile : σ → String → String → Nat → Option GoError × σ
  /-- The function azidentity.NewAzureCLICredential. -/
  newAzureCLICredential : σ → Result TokenCredential × σ
  /-- The error of armresources.NewClientFactory, armnetwork.NewClientFactory and
  armcompute.NewClientFactory, nil when the factory is built. The three are the
  same generated code: each builds an arm.Client from the credential and the
  options (nil at all three call sites) and returns its error. -/
  newClientFactory : String → TokenCredential → Option GoError
  /-- The method ResourceGroupsClient.CreateOrUpdate. -/
  resourceGroupsCreateOrUpdate : σ → String → ResourceGroup → Result ResourceGroup × σ
  /-- The method ClientFactory.NewVirtualNetworksClient, on a factory that
  exists. -/
  newVirtualNetworksClient : ClientFactory → Option VirtualNetworksClient
  /-- The method VirtualNetworksClient.Get, past its checks. -/
  liveVirtualNetworksGet : σ → VirtualNetworksClient → String → String →
    Result VirtualNetwork × σ
  /-- The method VirtualNetworksClient.BeginCreateOrUpdate, past its checks. -/
  liveVirtualNetworksBeginCreateOrUpdate : σ → VirtualNetworksClient → String → String →
    VirtualNetwork → Result Poller × σ
  /-- The method PollUntilDone of the virtual-network poller. -/
  virtualNetworksPollUntilDone : σ → Poller → Result VirtualNetwork × σ
  /-- The method PublicIPAddressesClient.BeginCreateOrUpdate, past its checks. -/
  livePublicIPAddressesBeginCreateOrUpdate : σ → PublicIPAddressesClient → String →
    String → PublicIPAddress → Result Poller × σ
  /-- The method PollUntilDone of the public-IP poller. -/
  publicIPAddressesPollUntilDone : σ → Poller → Result CreatedResource × σ
  /-- The method SecurityGroupsClient.BeginCreateOrUpdate, past its checks. -/
  liveSecurityGroupsBeginCreateOrUpdate : σ → SecurityGroupsClient → String → String →
    SecurityGroup → Result Poller × σ
  /-- The method PollUntilDone of the security-group poller. -/
  securityGroupsPollUntilDone : σ → Poller → Result CreatedResource × σ
  /-- The method InterfacesClient.BeginCreateOrUpdate, past its checks. -/
  liveInterfacesBeginCreateOrUpdate : σ → InterfacesClient → String → String →
    Interface → Result Poller × σ
  /-- The method PollUntilDone of the network-interface poller. -/
  interfacesPollUntilDone : σ → Poller → Result CreatedResource × σ
  /-- The method VirtualMachinesClient.BeginCreateOrUpdate. -/
  virtualMachinesBeginCreateOrUpdate : σ → String → String → VirtualMachine →
    Result Poller × σ
  /-- The method PollUntilDone of the virtual-machine poller. -/
  virtualMachinesPollUntilDone : σ → Poller → Result CreatedResource × σ

/-- A call of a method of a generated armnetwork client through a handle that
may be nil.  The method first builds its request path: an empty resource-group
name, then an empty resource name, is returned as an error, and the outside
world is not touched.  Only then does it read its client, and a nil client is
a panic there.  Past that, the library answers. -/
def throughHandle {σ α C : Type} (handle : Option C)
    (resourceGroupName resourceName parameterName : String) (w : σ)
    (live : C → Result α × σ) : Result α × σ :=
  if resourceGroupName = "" then
    (.fail (.plain "parameter resourceGroupName cannot be empty"), w)
  else if resourceName = "" then
    (.fail (.plain ("parameter " ++ parameterName ++ " cannot be empty")), w)
  else
    match handle with
    | none => (.panic, w)
    | some client => live client

/-- The call `client.Get` on a virtual-networks client handle. -/
def Sdk.virtualNetworksGet {σ : Type} (sdk : Sdk σ) (w : σ)
    (client : Option VirtualNetworksClient) (resourceGroupName virtualNetworkName : String) :
    Result VirtualNetwork × σ :=
  throughHandle client resourceGroupName virtualNetworkName "virtualNetworkName" w
    fun c => sdk.liveVirtualNetworksGet w c resourceGroupName virtualNetworkName

/-- The call `client.BeginCreateOrUpdate` on a virtual-networks client handle. -/
def Sdk.virtualNetworksBeginCreateOrUpdate {σ : Type} (sdk : Sdk σ) (w : σ)
    (client : Option VirtualNetworksClient) (resourceGroupName virtualNetworkName : String)
    (parameters : VirtualNetwork) : Result Poller × σ :=
  throughHandle client resourceGroupName virtualNetworkName "virtualNetworkName" w
    fun c => sdk.liveVirtualNetworksBeginCreateOrUpdate w c resourceGroupName
      virtualNetworkName parameters

/-- The call `client.BeginCreateOrUpdate` on a public-IP client handle. -/
def Sdk.publicIPAddressesBeginCreateOrUpdate {σ : Type} (sdk : Sdk σ) (w : σ)
    (client : Option PublicIPAddressesClient)
    (resourceGroupName publicIPAddressName : String) (parameters : PublicIPAddress) :
    Result Poller × σ :=
  throughHandle client resourceGroupName publicIPAddressName "publicIPAddressName" w
    fun c => sdk.livePublicIPAddressesBeginCreateOrUpdate w c resourceGroupName
      publicIPAddressName parameters

/-- The call `client.BeginCreateOrUpdate` on a security-groups client handle. -/
def Sdk.securityGroupsBeginCreateOrUpdate {σ : Type} (sdk : Sdk σ) (w : σ)
    (client : Option SecurityGroupsClient)
    (resourceGroupName networkSecurityGroupName : String) (parameters : SecurityGroup) :
    Result Poller × σ :=
  throughHandle client resourceGroupName networkSecurityGroupName
    "networkSecurityGroupName" w
    fun c => sdk.liveSecurityGroupsBeginCreateOrUpdate w c resourceGroupName
      networkSecurityGroupName parameters

/-- The call `client.BeginCreateOrUpdate` on an interfaces client handle. -/
def Sdk.interfacesBeginCreateOrUpdate {σ : Type} (sdk : Sdk σ) (w : σ)
    (client : Option InterfacesClient)
    (resourceGroupName networkInterfaceName : String) (parameters : Interface) :
    Result Poller × σ :=
  throughHandle client resourceGroupName networkInterfaceName "networkInterfaceName" w
    fun c => sdk.liveInterfacesBeginCreateOrUpdate w c resourceGroupName
      networkInterfaceName parameters

/-- An argument of a formatted print. -/
inductive PrintArg where
  | str (s : String)
  | err (e : GoError)
  deriving DecidableEq, Repr

/-- What the program does, one event per library call that performs input or
output, with the arguments passed, the handle the call went through and how the
call ended. A call that panics is an event too: the program made it. -/
inductive Event where
  | printf (format : String) (args : List PrintArg)
  | println (text : String)
  | logFatal (err : GoError)
  | sshGenerateKeys (res : Result (String × String))
  | writeFile (name data : String) (perm : Nat) (res : Option GoError)
  | newAzureCLICredential (res : Result TokenCredential)
  | resourceGroupsCreateOrUpdate (name : String) (param : ResourceGroup)
      (res : Result ResourceGroup)
  | virtualNetworksGet (client : Option VirtualNetworksClient) (rg name : String)
      (res : Result VirtualNetwork)
  | virtualNetworksBeginCreateOrUpdate (client : Option VirtualNetworksClient)
      (rg name : String) (param : VirtualNetwork) (res : Result Poller)
  | virtualNetworksPollUntilDone (poller : Poller) (res : Result VirtualNetwork)
  | publicIPAddressesBeginCreateOrUpdate (client : Option PublicIPAddressesClient)
      (rg name : String) (param : PublicIPAddress) (res : Result Poller)
  | publicIPAddressesPollUntilDone (poller : Poller) (res : Result CreatedResource)
  | securityGroupsBeginCreateOrUpdate (client : Option SecurityGroupsClient)
      (rg name : String) (param : SecurityGroup) (res : Result Poller)
  | securityGroupsPollUntilDone (poller : Poller) (res : Result CreatedResource)
  | interfacesBeginCreateOrUpdate (client : Option InterfacesClient)
      (rg name : String) (param : Interface) (res : Result Poller)
  | interfacesPollUntilDone (poller : Poller) (res : Result CreatedResource)
  | virtualMachinesBeginCreateOrUpdate (rg name : String) (param : VirtualMachine)
      (res : Result Poller)
  | virtualMachinesPollUntilDone (poller : Poller) (res : Result CreatedResource)
  deriving DecidableEq, Repr

/-- The package-level variables of lines 21-27. -/
structure Globals where
  virtualNetworksClient : Option VirtualNetworksClient
  publicIPAddressesClient : Option PublicIPAddressesClient
  securityGroupClient : Option SecurityGroupsClient
  interfacesClient : Option InterfacesClient
  networkClientFactory : Option ClientFactory
  deriving DecidableEq, Repr

/-- The package-level variables when the program starts: all nil. -/
def Globals.initial : Globals := ⟨none, none, none, none, none⟩

/-- Package-level variables with every handle assigned: a state that `main.go`
never reaches, since it assigns `virtualNetworksClient` after the lookup and the
other three client handles nowhere. It is used to follow the text of
`launchInstance` past the first call through a handle. -/
def Globals.preset : Globals :=
  ⟨some ⟨"sub"⟩, some ⟨"sub"⟩, some ⟨"sub"⟩, some ⟨"sub"⟩, some ⟨"sub"⟩⟩

/-- How a function call ends: it returns its `error` result, it panics (a nil
dereference or an index out of range), or it ends the process (`os.Exit`,
`log.Fatal`). -/
inductive Outcome where
  | returned (err : Option GoError)
  | panicked
  | exited (code : Nat)
  deriving DecidableEq, Repr

/-- A run: how it ended, the events in the order they happened, and the outside
world and the package-level variables at its end. -/
structure Run (σ : Type) where
  outcome : Outcome
  trace : List Event
  world : σ
  globals : Globals

/-- A run that ends here with no further event. -/
def Run.stop {σ : Type} (o : Outcome) (w : σ) (g : Globals) : Run σ := ⟨o, [], w, g⟩

/-- The run `r` after the event `e`. -/
def Run.pre {σ : Type} (e : Event) (r : Run σ) : Run σ :=
  ⟨r.outcome, e :: r.trace, r.world, r.globals⟩

/-! ## The program -/

/-- The function `findVnet` (lines 346-357): its two results, or `none` when the
call of line 347 panics; with the event of that call and the world after it. -/
def findVnet {σ : Type} (sdk : Sdk σ) (w : σ) (resourceGroupName vnetName : String)
    (vnetClient : Option VirtualNetworksClient) :
    Option (Bool × Option GoError) × Event × σ :=
  let r := sdk.virtualNetworksGet w vnetClient resourceGroupName vnetName
  let ev := Event.virtualNetworksGet vnetClient resourceGroupName vnetName r.1
  match r.1 with
  | .panic => (none, ev, r.2)
  | .fail err =>
    match errorsAsResponseError err with
    | some errorCode =>
      if errorCode = "ResourceNotFound" then (some (false, none), ev, r.2)
      else (some (false, some err), ev, r.2)
    | none => (some (false, some err), ev, r.2)
  | .ok _ => (some (true, none), ev, r.2)

/-- The request of lines 115-138. -/
def vnetParameters : VirtualNetwork :=
  { Location := some location
    Properties := some
      { AddressPrefixes := ["10.1.0.0/16"]
        Subnets :=
          [ some { ID := none, Name := some "sample-subnet-0", AddressPrefix := some "10.1.2.0/16" },
            some { ID := none, Name := some "sample-subnet-1", AddressPrefix := some "10.1.3.0/16" } ] } }

/-- The request of lines 156-163. -/
def publicIPParameters : PublicIPAddress :=
  { Name := "go-azure"
    Location := location
    PublicIPAddressVersion := .IPv4
    PublicIPAllocationMethod := .Static }

/-- The request of lines 179-211. -/
def securityGroupParameters : SecurityGroup :=
  { Location := location
    SecurityRules :=
      [ { Name := "allow_ssh"
          Protocol := .TCP
          SourceAddressPrefix := "0.0.0.0/0"
          SourcePortRange := "1-65535"
          DestinationAddressPrefix := "0.0.0.0/0"
          DestinationPortRange := "22"
          Access := .Allow
          Direction := .Inbound
          Priority := 100 },
        { Name := "allow_https"
          Protocol := .TCP
          SourceAddressPrefix := "0.0.0.0/0"
          SourcePortRange := "1-65535"
          DestinationAddressPrefix := "0.0.0.0/0"
          DestinationPortRange := "443"
          Access := .Allow
          Direction := .Inbound
          Priority := 200 } ] }

/-- The expression `*vnetResp.Properties.Subnets[0].ID` of line 236: `none` is a
panic (nil `Properties`, empty `Subnets`, nil first element or nil `ID`). -/
def firstSubnetID (vnetResp : VirtualNetwork) : Option String :=
  match vnetResp.Properties with
  | none => none
  | some properties =>
    match properties.Subnets with
    | [] => none
    | none :: _ => none
    | some subnet :: _ => subnet.ID

/-- The request of lines 227-248, from the three dereferenced IDs. -/
def interfaceParameters (subnetID ipID sgID : String) : Interface :=
  { Location := location
    IPConfigurations :=
      [ { Name := "ipConfig"
          PrivateIPAllocationMethod := .Dynamic
          SubnetID := subnetID
          PublicIPAddressID := ipID } ]
    NetworkSecurityGroupID := sgID }

/-- The request of lines 270-328. -/
def vmParameters (pubKey : Option String) (nicID : String) : VirtualMachine :=
  { Location := location
    IdentityType := "ResourceIdentityTypeNone"
    ImageOffer := "UbuntuServer"
    ImagePublisher := "Canonical"
    ImageSKU := "18.04-LTS"
    ImageVersion := "latest"
    OSDiskName := "go-azure"
    OSDiskCreateOption := "DiskCreateOptionTypesFromImage"
    OSDiskCaching := "CachingTypesReadWrite"
    StorageAccountType := "StorageAccountTypesStandardLRS"
    VMSize := "Standard_F2s"
    ComputerName := "go-azure"
    AdminUsername := "sample-user"
    DisablePasswordAuthentication := true
    SSHPublicKeyPath := "/home/sample-user/.ssh/authorized_keys"
    SSHPublicKeyData := pubKey
    NetworkInterfaceIDs := [nicID] }

/-- Lines 260-343 of `launchInstance`: the virtual machine.  `rgName` is
`*resourceGroupResp.Name`, which line 103 has already dereferenced. -/
def launchInstance_virtualMachine {σ : Type} (sdk : Sdk σ) (w : σ) (g : Globals)
    (cred : TokenCredential) (subscriptionID : String) (pubKey : Option String)
    (rgName : String) (ntResp : CreatedResource) : Run σ :=
  Run.pre (.println "Creating Virtual Machine") <|
  match sdk.newClientFactory subscriptionID cred with
  | some err => Run.pre (.logFatal err) (Run.stop (.exited 1) w g)
  | none =>
    match ntResp.ID with
    | none => Run.stop .panicked w g
    | some nicID =>
      let parameters := vmParameters pubKey nicID
      let b := sdk.virtualMachinesBeginCreateOrUpdate w rgName "go-azure" parameters
      Run.pre (.virtualMachinesBeginCreateOrUpdate rgName "go-azure" parameters b.1) <|
      match b.1 with
      | .panic => Run.stop .panicked b.2 g
      | .fail err => Run.stop (.returned (some err)) b.2 g
      | .ok VMpollerResponse =>
        let d := sdk.virtualMachinesPollUntilDone b.2 VMpollerResponse
        Run.pre (.virtualMachinesPollUntilDone VMpollerResponse d.1) <|
        match d.1 with
        | .panic => Run.stop .panicked d.2 g
        | .fail err => Run.stop (.returned (some err)) d.2 g
        | .ok newVmResp =>
          match newVmResp.ID with
          | none => Run.stop .panicked d.2 g
          | some vmID =>
            Run.pre (.printf "Virtual Machine %s\n" [.str vmID]) <|
            Run.stop (.returned none) d.2 g

/-- Lines 223-258 of `launchInstance`: the network interface, then the virtual
machine.  Both error branches are `return nil`. -/
def launchInstance_interface {σ : Type} (sdk : Sdk σ) (w : σ) (g : Globals)
    (cred : TokenCredential) (subscriptionID : String) (pubKey : Option String)
    (rgName : String) (vnetResp : VirtualNetwork) (ipResp sgResp : CreatedResource) : Run σ :=
  match firstSubnetID vnetResp with
  | none => Run.stop .panicked w g
  | some subnetID =>
    match ipResp.ID with
    | none => Run.stop .panicked w g
    | some ipID =>
      match sgResp.ID with
      | none => Run.stop .panicked w g
      | some sgID =>
        let parameters := interfaceParameters subnetID ipID sgID
        let b := sdk.interfacesBeginCreateOrUpdate w g.interfacesClient rgName "go-azure"
          parameters
        Run.pre (.interfacesBeginCreateOrUpdate g.interfacesClient rgName "go-azure"
          parameters b.1) <|
        match b.1 with
        | .panic => Run.stop .panicked b.2 g
        | .fail _ => Run.stop (.returned none) b.2 g
        | .ok newNICpollerResp =>
          let d := sdk.interfacesPollUntilDone b.2 newNICpollerResp
          Run.pre (.interfacesPollUntilDone newNICpollerResp d.1) <|
          match d.1 with
          | .panic => Run.stop .panicked d.2 g
          | .fail _ => Run.stop (.returned none) d.2 g
          | .ok ntResp =>
            launchInstance_virtualMachine sdk d.2 g cred subscriptionID pubKey rgName ntResp

/-- Lines 175-221 of `launchInstance`: the security group, then the rest. -/
def launchInstance_securityGroup {σ : Type} (sdk : Sdk σ) (w : σ) (g : Globals)
    (cred : TokenCredential) (subscriptionID : String) (pubKey : Option String)
    (rgName : String) (vnetResp : VirtualNetwork) (ipResp : CreatedResource) : Run σ :=
  let b := sdk.securityGroupsBeginCreateOrUpdate w g.securityGroupClient rgName "go-azure"
    securityGroupParameters
  Run.pre (.securityGroupsBeginCreateOrUpdate g.securityGroupClient rgName "go-azure"
    securityGroupParameters b.1) <|
  match b.1 with
  | .panic => Run.stop .panicked b.2 g
  | .fail err => Run.stop (.returned (some err)) b.2 g
  | .ok newSGpollerResp =>
    let d := sdk.securityGroupsPollUntilDone b.2 newSGpollerResp
    Run.pre (.securityGroupsPollUntilDone newSGpollerResp d.1) <|
    match d.1 with
    | .panic => Run.stop .panicked d.2 g
    | .fail err => Run.stop (.returned (some err)) d.2 g
    | .ok sgResp =>
      launchInstance_interface sdk d.2 g cred subscriptionID pubKey rgName vnetResp ipResp
        sgResp

/-- Lines 152-173 of `launchInstance`: the public IP address, then the rest. -/
def launchInstance_publicIP {σ : Type} (sdk : Sdk σ) (w : σ) (g : Globals)
    (cred : TokenCredential) (subscriptionID : String) (pubKey : Option String)
    (rgName : String) (vnetResp : VirtualNetwork) : Run σ :=
  let b := sdk.publicIPAddressesBeginCreateOrUpdate w g.publicIPAddressesClient rgName
    "go-azure" publicIPParameters
  Run.pre (.publicIPAddressesBeginCreateOrUpdate g.publicIPAddressesClient rgName "go-azure"
    publicIPParameters b.1) <|
  match b.1 with
  | .panic => Run.stop .panicked b.2 g
  | .fail err => Run.stop (.returned (some err)) b.2 g
  | .ok IPpollerResp =>
    let d := sdk.publicIPAddressesPollUntilDone b.2 IPpollerResp
    Run.pre (.publicIPAddressesPollUntilDone IPpollerResp d.1) <|
    match d.1 with
    | .panic => Run.stop .panicked d.2 g
    | .fail err => Run.stop (.returned (some err)) d.2 g
    | .ok ipResp =>
      launchInstance_securityGroup sdk d.2 g cred subscriptionID pubKey rgName vnetResp ipResp

/-- Lines 105-150 of `launchInstance`: the body of `if !found`, then the rest.
The error of `armnetwork.NewClientFactory` is assigned and never read; on an
error the factory is nil, and line 109 calls a method on it. -/
def launchInstance_createVnet {σ : Type} (sdk : Sdk σ) (w : σ) (g : Globals)
    (cred : TokenCredential) (subscriptionID : String) (pubKey : Option String)
    (rgName : String) : Run σ :=
  let networkClientFactory : Option ClientFactory :=
    match sdk.newClientFactory subscriptionID cred with
    | none => some ⟨subscriptionID⟩
    | some _ => none
  let g1 : Globals := { g with networkClientFactory := networkClientFactory }
  match networkClientFactory with
  | none => Run.stop .panicked w g1
  | some factory =>
    let g2 : Globals :=
      { g1 with virtualNetworksClient := sdk.newVirtualNetworksClient factory }
    let b := sdk.virtualNetworksBeginCreateOrUpdate w g2.virtualNetworksClient rgName
      "go-azure" vnetParameters
    Run.pre (.virtualNetworksBeginCreateOrUpdate g2.virtualNetworksClient rgName "go-azure"
      vnetParameters b.1) <|
    match b.1 with
    | .panic => Run.stop .panicked b.2 g2
    | .fail err => Run.stop (.returned (some err)) b.2 g2
    | .ok pollerResp =>
      let d := sdk.virtualNetworksPollUntilDone b.2 pollerResp
      Run.pre (.virtualNetworksPollUntilDone pollerResp d.1) <|
      match d.1 with
      | .panic => Run.stop .panicked d.2 g2
      | .fail err => Run.stop (.returned (some err)) d.2 g2
      | .ok vnetResp =>
        launchInstance_publicIP sdk d.2 g2 cred subscriptionID pubKey rgName vnetResp

/-- The function `launchInstance` (lines 88-344).  The second result of
`findVnet` is assigned to `err` and not read before `err` is assigned again. -/
def launchInstance {σ : Type} (sdk : Sdk σ) (w : σ) (g : Globals)
    (cred : TokenCredential) (subscriptionID : String) (pubKey : Option String) : Run σ :=
  match sdk.newClientFactory subscriptionID cred with
  | some err => Run.stop (.returned (some err)) w g
  | none =>
    let resourceGroupParam : ResourceGroup := { Name := none, Location := some location }
    let c := sdk.resourceGroupsCreateOrUpdate w "go-azure" resourceGroupParam
    Run.pre (.resourceGroupsCreateOrUpdate "go-azure" resourceGroupParam c.1) <|
    match c.1 with
    | .panic => Run.stop .panicked c.2 g
    | .fail err => Run.stop (.returned (some err)) c.2 g
    | .ok resourceGroupResp =>
      let vnetResp : VirtualNetwork := VirtualNetwork.zero
      match resourceGroupResp.Name with
      | none => Run.stop .panicked c.2 g
      | some rgName =>
        let f := findVnet sdk c.2 rgName "go-azure" g.virtualNetworksClient
        Run.pre f.2.1 <|
        match f.1 with
        | none => Run.stop .panicked f.2.2 g
        | some (found, _) =>
          if !found then
            launchInstance_createVnet sdk f.2.2 g cred subscriptionID pubKey rgName
          else
            launchInstance_publicIP sdk f.2.2 g cred subscriptionID pubKey rgName vnetResp

/-- How a called function hands control back: a value, a panic, or the process
has ended with an exit status. -/
inductive Step (α : Type) where
  | value (v : α)
  | panicked
  | exit (code : Nat)
  deriving DecidableEq, Repr

/-- The function `generateKeys` (lines 55-77): the public key and a nil error,
or an exit with status 1; with the events and the world after. -/
def generateKeys {σ : Type} (sdk : Sdk σ) (w : σ) :
    Step (String × Option GoError) × List Event × σ :=
  let k := sdk.sshGenerateKeys w
  match k.1 with
  | .panic => (.panicked, [.sshGenerateKeys k.1], k.2)
  | .fail err => (.exit 1, [.sshGenerateKeys k.1, .printf "Error: %s\n" [.err err]], k.2)
  | .ok (privateKey, publicKey) =>
    let a := sdk.writeFile k.2 "mykey.pem" privateKey 0o600
    match a.1 with
    | some err =>
      (.exit 1, [.sshGenerateKeys k.1, .writeFile "mykey.pem" privateKey 0o600 a.1,
        .printf "Error: %s\n" [.err err]], a.2)
    | none =>
      let b := sdk.writeFile a.2 "mykey.pub" publicKey 0o644
      match b.1 with
      | some err =>
        (.exit 1, [.sshGenerateKeys k.1, .writeFile "mykey.pem" privateKey 0o600 a.1,
          .writeFile "mykey.pub" publicKey 0o644 b.1, .printf "Error: %s\n" [.err err]], b.2)
      | none =>
        (.value (publicKey, none), [.sshGenerateKeys k.1,
          .writeFile "mykey.pem" privateKey 0o600 a.1,
          .writeFile "mykey.pub" publicKey 0o644 b.1], b.2)

/-- The function `getToken` (lines 79-86): both branches return the pair that
`azidentity.NewAzureCLICredential` gave. -/
def getToken {σ : Type} (sdk : Sdk σ) (w : σ) : Result TokenCredential × Event × σ :=
  let t := sdk.newAzureCLICredential w
  (t.1, .newAzureCLICredential t.1, t.2)

/-- The call `os.Getenv`: the value of the variable, empty when it is unset. -/
def Getenv (environ : String → Option String) (key : String) : String :=
  match environ key with
  | some value => value
  | none => ""

/-- The run `r` after the events `es`. -/
def Run.after {σ : Type} (es : List Event) (r : Run σ) : Run σ :=
  ⟨r.outcome, es ++ r.trace, r.world, r.globals⟩

/-- The function `main` (lines 29-53), started with the package-level variables
all nil.  A return from `main` is the exit status 0; `len` of a Go string is its
length in bytes. -/
def main {σ : Type} (sdk : Sdk σ) (environ : String → Option String) (w : σ) : Run σ :=
  let subscriptionID := Getenv environ "SUBSCRIPTION_ID"
  if subscriptionID.utf8ByteSize = 0 then
    Run.pre (.printf "No subscription Id was provided" []) (Run.stop (.exited 1) w Globals.initial)
  else
    let k := generateKeys sdk w
    Run.after k.2.1 <|
    match k.1 with
    | .panicked => Run.stop .panicked k.2.2 Globals.initial
    | .exit code => Run.stop (.exited code) k.2.2 Globals.initial
    | .value (_, some err) =>
      Run.pre (.printf "generatekeys error  %s\n" [.err err])
        (Run.stop (.exited 1) k.2.2 Globals.initial)
    | .value (pubKey, none) =>
      let t := getToken sdk k.2.2
      Run.pre t.2.1 <|
      match t.1 with
      | .panic => Run.stop .panicked t.2.2 Globals.initial
      | .fail err =>
        Run.pre (.printf "Error: %s\n" [.err err]) (Run.stop (.exited 1) t.2.2 Globals.initial)
      | .ok token =>
        let r := launchInstance sdk t.2.2 Globals.initial token subscriptionID (some pubKey)
        match r.outcome with
        | .returned (some err) =>
          ⟨.exited 1, r.trace ++ [.printf "Error: %s\n" [.err err]], r.world, r.globals⟩
        | .returned none => ⟨.exited 0, r.trace, r.world, r.globals⟩
        | .panicked => r
        | .exited code => ⟨.exited code, r.trace, r.world, r.globals⟩

/-! ## Scripted libraries

A library parameter that answers each call with a fixed result, whatever the
state of the world: used to run the program on concrete inputs. -/

/-- The fixed answers of a scripted library, one per call of `launchInstance`. -/
structure Script where
  clientFactory : Option GoError
  rgCreateOrUpdate : Result ResourceGroup
  vnetGet : Result VirtualNetwork
  vnetBegin : Result Poller
  vnetPoll : Result VirtualNetwork
  ipBegin : Result Poller
  ipPoll : Result CreatedResource
  sgBegin : Result Poller
  sgPoll : Result CreatedResource
  nicBegin : Result Poller
  nicPoll : Result CreatedResource
  vmBegin : Result Poller
  vmPoll : Result CreatedResource

/-- The library that follows the script `s`; key generation, file writes and
the credential succeed. -/
def scripted (s : Script) : Sdk Unit where
  sshGenerateKeys := fun w => (.ok ("private", "public"), w)
  writeFile := fun w _ _ _ => (none, w)
  newAzureCLICredential := fun w => (.ok ⟨"cli"⟩, w)
  newClientFactory := fun _ _ => s.clientFactory
  resourceGroupsCreateOrUpdate := fun w _ _ => (s.rgCreateOrUpdate, w)
  newVirtualNetworksClient := fun factory => some ⟨factory.subscriptionID⟩
  liveVirtualNetworksGet := fun w _ _ _ => (s.vnetGet, w)
  liveVirtualNetworksBeginCreateOrUpdate := fun w _ _ _ _ => (s.vnetBegin, w)
  virtualNetworksPollUntilDone := fun w _ => (s.vnetPoll, w)
  livePublicIPAddressesBeginCreateOrUpdate := fun w _ _ _ _ => (s.ipBegin, w)
  publicIPAddressesPollUntilDone := fun w _ => (s.ipPoll, w)
  liveSecurityGroupsBeginCreateOrUpdate := fun w _ _ _ _ => (s.sgBegin, w)
  securityGroupsPollUntilDone := fun w _ => (s.sgPoll, w)
  liveInterfacesBeginCreateOrUpdate := fun w _ _ _ _ => (s.nicBegin, w)
  interfacesPollUntilDone := fun w _ => (s.nicPoll, w)
  virtualMachinesBeginCreateOrUpdate := fun w _ _ _ => (s.vmBegin, w)
  virtualMachinesPollUntilDone := fun w _ => (s.vmPoll, w)

/-- The virtual network a finished creation reports: the two subnets of the
request, each with an ID. -/
def createdVnet : VirtualNetwork :=
  { Location := some location
    Properties := some
      { AddressPrefixes := ["10.1.0.0/16"]
        Subnets :=
          [ some { ID := some "subnet-0", Name := some "sample-subnet-0",
                   AddressPrefix := some "10.1.2.0/16" },
            some { ID := some "subnet-1", Name := some "sample-subnet-1",
                   AddressPrefix := some "10.1.3.0/16" } ] } }

/-- The script in which every call that reaches the service succeeds and the
virtual network is absent: the lookup answers with the error code
ResourceNotFound. -/
def Script.vnetAbsent : Script where
  clientFactory := none
  rgCreateOrUpdate := .ok ⟨some "go-azure", some location⟩
  vnetGet := .fail (.response "ResourceNotFound")
  vnetBegin := .ok ⟨"vnet"⟩
  vnetPoll := .ok createdVnet
  ipBegin := .ok ⟨"ip"⟩
  ipPoll := .ok ⟨some "ip-id"⟩
  sgBegin := .ok ⟨"sg"⟩
  sgPoll := .ok ⟨some "sg-id"⟩
  nicBegin := .ok ⟨"nic"⟩
  nicPoll := .ok ⟨some "nic-id"⟩
  vmBegin := .ok ⟨"vm"⟩
  vmPoll := .ok ⟨some "vm-id"⟩

/-- The script in which every call that reaches the service succeeds and the
virtual network is present: the lookup answers with the network. -/
def Script.vnetPresent : Script :=
  { Script.vnetAbsent with vnetGet := .ok createdVnet }

/-- The credential used in concrete runs. -/
def cliCredential : TokenCredential := ⟨"cli"⟩

/-! ## Reading a trace -/

/-- The resource-management API calls of the pipeline. A create call is the
submission of the operation (`BeginCreateOrUpdate`, or `CreateOrUpdate` for the
resource group); waiting for it is `poll`. -/
inductive ApiCall where
  | resourceGroupCreateOrUpdate
  | vnetGet
  | vnetCreate
  | publicIPCreate
  | securityGroupCreate
  | interfaceCreate
  | virtualMachineCreate
  deriving DecidableEq, Repr

/-- The API call an event submits, if it submits one. -/
def Event.apiCall : Event → Option ApiCall
  | .resourceGroupsCreateOrUpdate _ _ _ => some .resourceGroupCreateOrUpdate
  | .virtualNetworksGet _ _ _ _ => some .vnetGet
  | .virtualNetworksBeginCreateOrUpdate _ _ _ _ _ => some .vnetCreate
  | .publicIPAddressesBeginCreateOrUpdate _ _ _ _ _ => some .publicIPCreate
  | .securityGroupsBeginCreateOrUpdate _ _ _ _ _ => some .securityGroupCreate
  | .interfacesBeginCreateOrUpdate _ _ _ _ _ => some .interfaceCreate
  | .virtualMachinesBeginCreateOrUpdate _ _ _ _ => some .virtualMachineCreate
  | _ => none

/-- The API calls a trace submits, in order. -/
def apiCalls (trace : List Event) : List ApiCall := trace.filterMap Event.apiCall

/-- The place of an event in the text of `launchInstance`: the events of a run
happen in increasing order of it. Events of `main` alone have place 0. -/
def Event.place : Event → Nat
  | .resourceGroupsCreateOrUpdate _ _ _ => 1
  | .virtualNetworksGet _ _ _ _ => 2
  | .virtualNetworksBeginCreateOrUpdate _ _ _ _ _ => 3
  | .virtualNetworksPollUntilDone _ _ => 4
  | .publicIPAddressesBeginCreateOrUpdate _ _ _ _ _ => 5
  | .publicIPAddressesPollUntilDone _ _ => 6
  | .securityGroupsBeginCreateOrUpdate _ _ _ _ _ => 7
  | .securityGroupsPollUntilDone _ _ => 8
  | .interfacesBeginCreateOrUpdate _ _ _ _ _ => 9
  | .interfacesPollUntilDone _ _ => 10
  | .println _ => 11
  | .logFatal _ => 12
  | .virtualMachinesBeginCreateOrUpdate _ _ _ _ => 13
  | .virtualMachinesPollUntilDone _ _ => 14
  | .printf _ _ => 15
  | .sshGenerateKeys _ => 0
  | .writeFile _ _ _ _ => 0
  | .newAzureCLICredential _ => 0

/-! ## The platform as a store of resources -/

/-- The kinds of resource the pipeline creates. -/
inductive Kind where
  | resourceGroup
  | virtualNetwork
  | publicIP
  | securityGroup
  | interface
  | virtualMachine
  deriving DecidableEq, Repr

/-- Modelled from the spec: the key of a resource on the platform, which is not
part of this repository: resource group, kind and name. -/
structure Key where
  group : String
  kind : Kind
  name : String
  deriving DecidableEq, Repr

/-- Modelled from the spec: the platform, which is not part of this repository,
as the store of the resources it holds, by key. -/
abbrev Store := List Key

/-- Modelled from the spec: create-or-update on the platform store, which is not
part of this repository: a resource whose key is held is updated in place, any
other is added. -/
def Store.put (s : Store) (k : Key) : Store :=
  if k ∈ s then s else s ++ [k]

/-- The number of resources of a kind in the store. -/
def Store.count (s : Store) (kind : Kind) : Nat :=
  (s.filter fun k => k.kind = kind).length

/-- Modelled from the spec: the platform, which is not part of this repository,
as a library over the store. Every create-or-update that reaches it succeeds
and puts the resource under (resource group, kind, name); a finished operation
reports the ID the submission chose; the lookup of a virtual network succeeds
when its key is held and fails with the error code ResourceNotFound when it is
not. -/
def storeSdk : Sdk Store where
  sshGenerateKeys := fun s => (.ok ("private", "public"), s)
  writeFile := fun s _ _ _ => (none, s)
  newAzureCLICredential := fun s => (.ok ⟨"cli"⟩, s)
  newClientFactory := fun _ _ => none
  resourceGroupsCreateOrUpdate := fun s name param =>
    (.ok ⟨some name, param.Location⟩, s.put ⟨name, .resourceGroup, name⟩)
  newVirtualNetworksClient := fun factory => some ⟨factory.subscriptionID⟩
  liveVirtualNetworksGet := fun s _ rg name =>
    if (⟨rg, .virtualNetwork, name⟩ : Key) ∈ s then (.ok createdVnet, s)
    else (.fail (.response "ResourceNotFound"), s)
  liveVirtualNetworksBeginCreateOrUpdate := fun s _ rg name _ =>
    (.ok ⟨rg ++ "/virtualNetworks/" ++ name⟩, s.put ⟨rg, .virtualNetwork, name⟩)
  virtualNetworksPollUntilDone := fun s _ => (.ok createdVnet, s)
  livePublicIPAddressesBeginCreateOrUpdate := fun s _ rg name _ =>
    (.ok ⟨rg ++ "/publicIPAddresses/" ++ name⟩, s.put ⟨rg, .publicIP, name⟩)
  publicIPAddressesPollUntilDone := fun s poller => (.ok ⟨some poller.operation⟩, s)
  liveSecurityGroupsBeginCreateOrUpdate := fun s _ rg name _ =>
    (.ok ⟨rg ++ "/networkSecurityGroups/" ++ name⟩, s.put ⟨rg, .securityGroup, name⟩)
  securityGroupsPollUntilDone := fun s poller => (.ok ⟨some poller.operation⟩, s)
  liveInterfacesBeginCreateOrUpdate := fun s _ rg name _ =>
    (.ok ⟨rg ++ "/networkInterfaces/" ++ name⟩, s.put ⟨rg, .interface, name⟩)
  interfacesPollUntilDone := fun s poller => (.ok ⟨some poller.operation⟩, s)
  virtualMachinesBeginCreateOrUpdate := fun s rg name _ =>
    (.ok ⟨rg ++ "/virtualMachines/" ++ name⟩, s.put ⟨rg, .virtualMachine, name⟩)
  virtualMachinesPollUntilDone := fun s poller => (.ok ⟨some poller.operation⟩, s)

/-- One run of the pipeline against the store `s`, started with the
package-level variables `g`. -/
def runOnStore (g : Globals) (s : Store) : Run Store :=
  launchInstance storeSdk s g cliCredential "sub" (some "public")

/-- The second of two runs in succession against the store `s`: each run is a
process of its own, the first started with the package-level variables `g1`,
the second with `g2`. -/
def secondRunOnStore (g1 g2 : Globals) (s : Store) : Run Store :=
  runOnStore g2 (runOnStore g1 s).world

/-- The key under which the pipeline puts its resource of the kind `kind`: every
resource it creates is named go-azure, in the resource group go-azure. -/
def pipelineKey (kind : Kind) : Key := ⟨"go-azure", kind, "go-azure"⟩

/-- The store after create-or-update of the pipeline's resources of the kinds
`kinds`, in that order. -/
def Store.putAll (s : Store) (kinds : List Kind) : Store :=
  kinds.foldl (fun acc kind => acc.put (pipelineKey kind)) s

/-! ## Concrete inputs -/

/-- Every call that reaches the service succeeds, and the response to the
resource-group call carries an empty name. -/
def Script.emptyGroupName : Script :=
  { Script.vnetAbsent with rgCreateOrUpdate := .ok ⟨some "", some location⟩ }

/-- Every call that reaches the service succeeds but the lookup of the virtual
network, which the service denies. -/
def Script.lookupDenied : Script :=
  { Script.vnetAbsent with vnetGet := .fail (.response "AuthorizationFailed") }

/-- Every call that reaches the service succeeds but the submission of the
network interface; the virtual network is absent. -/
def Script.nicRejected : Script :=
  { Script.vnetAbsent with nicBegin := .fail (.plain "quota exceeded") }

/-- An environment in which no variable is set. -/
def environEmpty : String → Option String := fun _ => none

/-- What the text of `launchInstance` fixes about a call it makes: the resource
name, the request, and the package-level handle the call goes through, when the
package-level variables are `g` at the start of the run. -/
def Event.asWritten (g : Globals) : Event → Prop
  | .virtualNetworksGet client _ name _ => client = g.virtualNetworksClient ∧ name = "go-azure"
  | .virtualNetworksBeginCreateOrUpdate _ _ name param _ =>
    name = "go-azure" ∧ param = vnetParameters
  | .publicIPAddressesBeginCreateOrUpdate client _ name param _ =>
    client = g.publicIPAddressesClient ∧ name = "go-azure" ∧ param = publicIPParameters
  | .securityGroupsBeginCreateOrUpdate client _ name param _ =>
    client = g.securityGroupClient ∧ name = "go-azure" ∧ param = securityGroupParameters
  | .interfacesBeginCreateOrUpdate client _ name _ _ =>
    client = g.interfacesClient ∧ name = "go-azure"
  | _ => True

/-- The run of `launchInstance` in a fresh process against the scripted
library of `s`. -/
def runScript (s : Script) : Run Unit :=
  launchInstance (scripted s) () Globals.initial cliCredential "sub" (some "public")

/-- The run of `launchInstance` against the scripted library of `s` from the
preset package-level variables. -/
def runPreset (s : Script) : Run Unit :=
  launchInstance (scripted s) () Globals.preset cliCredential "sub" (some "public")

/-- The place of the event that submits an API call. -/
def ApiCall.place : ApiCall → Nat
  | .resourceGroupCreateOrUpdate => 1
  | .vnetGet => 2
  | .vnetCreate => 3
  | .publicIPCreate => 5
  | .securityGroupCreate => 7
  | .interfaceCreate => 9
  | .virtualMachineCreate => 13

/-- Every event of the virtual-machine step has place 11 or later. -/
theorem place_virtualMachine {σ : Type} (sdk : Sdk σ) (w : σ) (g : Globals)
    (cred : TokenCredential) (subscriptionID : String) (pubKey : Option String)
    (rgName : String) (ntResp : CreatedResource) :
    ∀ e ∈ (launchInstance_virtualMachine sdk w g cred subscriptionID pubKey rgName
      ntResp).trace, 11 ≤ e.place := by
  intro e he
  unfold launchInstance_virtualMachine at he
  simp only [Run.pre, Run.stop] at he
  repeat' split at he
  all_goals simp at he
  all_goals rcases he with h | h | h | h <;> subst_vars <;> simp [Event.place]

/-- Every event from the network-interface step on has place 9 or later. -/
theorem place_interface {σ : Type} (sdk : Sdk σ) (w : σ) (g : Globals)
    (cred : TokenCredential) (subscriptionID : String) (pubKey : Option String)
    (rgName : String) (vnetResp : VirtualNetwork) (ipResp sgResp : CreatedResource) :
    ∀ e ∈ (launchInstance_interface sdk w g cred subscriptionID pubKey rgName vnetResp
      ipResp sgResp).trace, 9 ≤ e.place := by
  intro e he
  unfold launchInstance_interface at he
  simp only [Run.pre, Run.stop] at he
  repeat' split at he
  all_goals simp at he
  all_goals
    rcases he with h | h | h <;>
      first
      | (subst_vars; simp [Event.place]; done)
      | (have hp := place_virtualMachine _ _ _ _ _ _ _ _ e ‹_›; omega)

/-- Every event from the security-group step on has place 7 or later. -/
theorem place_securityGroup {σ : Type} (sdk : Sdk σ) (w : σ) (g : Globals)
    (cred : TokenCredential) (subscriptionID : String) (pubKey : Option String)
    (rgName : String) (vnetResp : VirtualNetwork) (ipResp : CreatedResource) :
    ∀ e ∈ (launchInstance_securityGroup sdk w g cred subscriptionID pubKey rgName vnetResp
      ipResp).trace, 7 ≤ e.place := by
  intro e he
  unfold launchInstance_securityGroup at he
  simp only [Run.pre, Run.stop] at he
  repeat' split at he
  all_goals simp at he
  all_goals
    rcases he with h | h | h <;>
      first
      | (subst_vars; simp [Event.place]; done)
      | (have hp := place_interface _ _ _ _ _ _ _ _ _ _ e ‹_›; omega)

/-- Every event from the public-IP step on has place 5 or later. -/
theorem place_publicIP {σ : Type} (sdk : Sdk σ) (w : σ) (g : Globals)
    (cred : TokenCredential) (subscriptionID : String) (pubKey : Option String)
    (rgName : String) (vnetResp : VirtualNetwork) :
    ∀ e ∈ (launchInstance_publicIP sdk w g cred subscriptionID pubKey rgName vnetResp).trace,
      5 ≤ e.place := by
  intro e he
  unfold launchInstance_publicIP at he
  simp only [Run.pre, Run.stop] at he
  repeat' split at he
  all_goals simp at he
  all_goals
    rcases he with h | h | h <;>
      first
      | (subst_vars; simp [Event.place]; done)
      | (have hp := place_securityGroup _ _ _ _ _ _ _ _ _ e ‹_›; omega)

/-- Every event from the creation of the virtual network on has place 3 or
later. -/
theorem place_createVnet {σ : Type} (sdk : Sdk σ) (w : σ) (g : Globals)
    (cred : TokenCredential) (subscriptionID : String) (pubKey : Option String)
    (rgName : String) :
    ∀ e ∈ (launchInstance_createVnet sdk w g cred subscriptionID pubKey rgName).trace,
      3 ≤ e.place := by
  intro e he
  unfold launchInstance_createVnet at he
  simp only [Run.pre, Run.stop] at he
  repeat' split at he
  all_goals simp at he
  all_goals
    rcases he with h | h | h <;>
      first
      | (subst_vars; simp [Event.place]; done)
      | (have hp := place_publicIP _ _ _ _ _ _ _ _ e ‹_›; omega)

/-! ## The calls as written -/

/-- The events of the virtual-machine step are as written. -/
theorem asWritten_virtualMachine {σ : Type} (sdk : Sdk σ) (w : σ) (g g0 : Globals)
    (cred : TokenCredential) (subscriptionID : String) (pubKey : Option String)
    (rgName : String) (ntResp : CreatedResource) :
    ∀ e ∈ (launchInstance_virtualMachine sdk w g cred subscriptionID pubKey rgName
      ntResp).trace, e.asWritten g0 := by
  intro e he
  have h := place_virtualMachine _ _ _ _ _ _ _ _ e he
  cases e <;> simp [Event.place] at h <;> simp [Event.asWritten]

/-- The events from the network-interface step on are as written: the handles
of the public IP, security group and interface clients are those of `g`. -/
theorem asWritten_interface {σ : Type} (sdk : Sdk σ) (w : σ) (g : Globals)
    (vc : Option VirtualNetworksClient) (nf : Option ClientFactory)
    (cred : TokenCredential) (subscriptionID : String) (pubKey : Option String)
    (rgName : String) (vnetResp : VirtualNetwork) (ipResp sgResp : CreatedResource) :
    ∀ e ∈ (launchInstance_interface sdk w g cred subscriptionID pubKey rgName vnetResp
      ipResp sgResp).trace,
      e.asWritten ⟨vc, g.publicIPAddressesClient, g.securityGroupClient, g.interfacesClient,
        nf⟩ := by
  intro e he
  unfold launchInstance_interface at he
  simp only [Run.pre, Run.stop] at he
  repeat' split at he
  all_goals simp at he
  all_goals
    rcases he with h | h | h <;>
      first
      | (subst_vars; simp [Event.asWritten]; done)
      | (exact asWritten_virtualMachine _ _ _ _ _ _ _ _ _ e ‹_›)

/-- The events from the security-group step on are as written. -/
theorem asWritten_securityGroup {σ : Type} (sdk : Sdk σ) (w : σ) (g : Globals)
    (vc : Option VirtualNetworksClient) (nf : Option ClientFactory)
    (cred : TokenCredential) (subscriptionID : String) (pubKey : Option String)
    (rgName : String) (vnetResp : VirtualNetwork) (ipResp : CreatedResource) :
    ∀ e ∈ (launchInstance_securityGroup sdk w g cred subscriptionID pubKey rgName vnetResp
      ipResp).trace,
      e.asWritten ⟨vc, g.publicIPAddressesClient, g.securityGroupClient, g.interfacesClient,
        nf⟩ := by
  intro e he
  unfold launchInstance_securityGroup at he
  simp only [Run.pre, Run.stop] at he
  repeat' split at he
  all_goals simp at he
  all_goals
    rcases he with h | h | h <;>
      first
      | (subst_vars; simp [Event.asWritten]; done)
      | (exact asWritten_interface _ _ _ _ _ _ _ _ _ _ _ _ e ‹_›)

/-- The events from the public-IP step on are as written. -/
theorem asWritten_publicIP {σ : Type} (sdk : Sdk σ) (w : σ) (g : Globals)
    (vc : Option VirtualNetworksClient) (nf : Option ClientFactory)
    (cred : TokenCredential) (subscriptionID : String) (pubKey : Option String)
    (rgName : String) (vnetResp : VirtualNetwork) :
    ∀ e ∈ (launchInstance_publicIP sdk w g cred subscriptionID pubKey rgName vnetResp).trace,
      e.asWritten ⟨vc, g.publicIPAddressesClient, g.securityGroupClient, g.interfacesClient,
        nf⟩ := by
  intro e he
  unfold launchInstance_publicIP at he
  simp only [Run.pre, Run.stop] at he
  repeat' split at he
  all_goals simp at he
  all_goals
    rcases he with h | h | h <;>
      first
      | (subst_vars; simp [Event.asWritten]; done)
      | (exact asWritten_securityGroup _ _ _ _ _ _ _ _ _ _ _ e ‹_›)

/-- The events from the creation of the virtual network on are as written. -/
theorem asWritten_createVnet {σ : Type} (sdk : Sdk σ) (w : σ) (g : Globals)
    (vc : Option VirtualNetworksClient) (nf : Option ClientFactory)
    (cred : TokenCredential) (subscriptionID : String) (pubKey : Option String)
    (rgName : String) :
    ∀ e ∈ (launchInstance_createVnet sdk w g cred subscriptionID pubKey rgName).trace,
      e.asWritten ⟨vc, g.publicIPAddressesClient, g.securityGroupClient, g.interfacesClient,
        nf⟩ := by
  intro e he
  unfold launchInstance_createVnet at he
  simp only [Run.pre, Run.stop] at he
  repeat' split at he
  all_goals simp at he
  all_goals
    rcases he with h | h | h <;>
      first
      | (subst_vars; simp [Event.asWritten]; done)
      | (have hp := asWritten_publicIP _ _ _ vc nf _ _ _ _ _ e h; exact hp)

/-- Every event of a run of `launchInstance` is as written, with the handles
that the package-level variables held at the start of the run. -/
theorem asWritten_launchInstance {σ : Type} (sdk : Sdk σ) (w : σ) (g : Globals)
    (cred : TokenCredential) (subscriptionID : String) (pubKey : Option String) :
    ∀ e ∈ (launchInstance sdk w g cred subscriptionID pubKey).trace, e.asWritten g := by
  intro e he
  unfold launchInstance at he
  simp only [Run.pre, Run.stop, findVnet] at he
  repeat' split at he
  all_goals simp at he
  all_goals
    rcases he with h | h | h <;>
      first
      | (subst_vars; simp [Event.asWritten]; done)
      | (exact asWritten_createVnet _ _ g g.virtualNetworksClient g.networkClientFactory
          _ _ _ _ e ‹_›)
      | (exact asWritten_publicIP _ _ g g.virtualNetworksClient g.networkClientFactory
          _ _ _ _ _ e ‹_›)

/-! ## The lookup of the virtual network -/

/-- C1: whatever the lookup call answers, through whatever handle, `findVnet`
returns (false, nil) when it fails with a response error of code
ResourceNotFound, (false, err) with the same error when it fails with a response
error of another code or with an error that is no response error, and
(true, nil) when it succeeds; it never returns true together with an error. -/
theorem findVnet_contract {σ : Type} (sdk : Sdk σ) (w : σ) (rg name : String)
    (client : Option VirtualNetworksClient) :
    (∀ err, (sdk.virtualNetworksGet w client rg name).1 = .fail err →
      errorsAsResponseError err = some "ResourceNotFound" →
      (findVnet sdk w rg name client).1 = some (false, none)) ∧
    (∀ err code, (sdk.virtualNetworksGet w client rg name).1 = .fail err →
      errorsAsResponseError err = some code → code ≠ "ResourceNotFound" →
      (findVnet sdk w rg name client).1 = some (false, some err)) ∧
    (∀ err, (sdk.virtualNetworksGet w client rg name).1 = .fail err →
      errorsAsResponseError err = none →
      (findVnet sdk w rg name client).1 = some (false, some err)) ∧
    (∀ vnet, (sdk.virtualNetworksGet w client rg name).1 = .ok vnet →
      (findVnet sdk w rg name client).1 = some (true, none)) ∧
    (∀ found err, (findVnet sdk w rg name client).1 = some (found, err) →
      found = true → err = none) ∧
    ((sdk.virtualNetworksGet w client rg name).1 = .panic ↔
      (findVnet sdk w rg name client).1 = none) := by
  refine ⟨?_, ?_, ?_, ?_, ?_, ?_⟩
  · intro err h hc
    simp [findVnet, h, hc]
  · intro err code h hc hne
    simp [findVnet, h, hc, hne]
  · intro err h hc
    simp [findVnet, h, hc]
  · intro vnet h
    simp [findVnet, h]
  · unfold findVnet
    simp only []
    repeat' split
    all_goals simp
  · unfold findVnet
    simp only []
    repeat' split
    all_goals simp_all

/-- The contract of `findVnet` on a lookup, through a client that exists, that
answers ResourceNotFound inside a wrapping error. -/
theorem findVnet_contract_witness :
    (findVnet (scripted { Script.vnetAbsent with
        vnetGet := .fail (.wrap "GET failed" (.response "ResourceNotFound")) })
      () "go-azure" "go-azure" (some ⟨"sub"⟩)).1 = some (false, none) :=
  (findVnet_contract (scripted { Script.vnetAbsent with
      vnetGet := .fail (.wrap "GET failed" (.response "ResourceNotFound")) })
    () "go-azure" "go-azure" (some ⟨"sub"⟩)).1 _ rfl rfl

/-! ## The subscription -/

/-- C6: when SUBSCRIPTION_ID is unset or empty, `main` exits with status 1
after its one message: no key is generated, no file is written, no credential
is asked for, no API call is made, and the outside world is as it was. -/
theorem main_without_subscription {σ : Type} (sdk : Sdk σ)
    (environ : String → Option String) (w : σ)
    (h : environ "SUBSCRIPTION_ID" = none ∨ environ "SUBSCRIPTION_ID" = some "") :
    (main sdk environ w).outcome = .exited 1 ∧
    (main sdk environ w).trace = [.printf "No subscription Id was provided" []] ∧
    (main sdk environ w).world = w := by
  have hs : Getenv environ "SUBSCRIPTION_ID" = "" := by
    rcases h with h | h <;> simp [Getenv, h]
  have hz : ("" : String).utf8ByteSize = 0 := by decide
  simp [main, hs, hz, Run.pre, Run.stop]

/-- The exit of `main` in an environment with no variable set. -/
theorem main_without_subscription_witness :
    (main (scripted Script.vnetAbsent) environEmpty ()).outcome = .exited 1 ∧
    (main (scripted Script.vnetAbsent) environEmpty ()).trace =
      [.printf "No subscription Id was provided" []] ∧
    (main (scripted Script.vnetAbsent) environEmpty ()).world = () :=
  main_without_subscription (scripted Script.vnetAbsent) environEmpty () (Or.inl rfl)

/-! ## After the lookup -/

/-- The event and the world after `findVnet` are those of its one call. -/
theorem findVnet_event {σ : Type} (sdk : Sdk σ) (w : σ) (rg name : String)
    (client : Option VirtualNetworksClient) :
    (findVnet sdk w rg name client).2 =
      (Event.virtualNetworksGet client rg name (sdk.virtualNetworksGet w client rg name).1,
        (sdk.virtualNetworksGet w client rg name).2) := by
  unfold findVnet
  simp only []
  repeat' split
  all_goals rfl

/-- A lookup event in a run of `launchInstance` is the lookup of line 103: the
client factory was built, the resource group was created, its response carries
the name looked up, and the result in the event is how the call ended. -/
theorem lookup_in_trace {σ : Type} (sdk : Sdk σ) (w : σ) (g : Globals)
    (cred : TokenCredential) (subscriptionID : String) (pubKey : Option String)
    (client : Option VirtualNetworksClient) (rg name : String) (res : Result VirtualNetwork)
    (h : Event.virtualNetworksGet client rg name res ∈
      (launchInstance sdk w g cred subscriptionID pubKey).trace) :
    ∃ rgResp,
      sdk.newClientFactory subscriptionID cred = none ∧
      (sdk.resourceGroupsCreateOrUpdate w "go-azure" ⟨none, some location⟩).1 = .ok rgResp ∧
      rgResp.Name = some rg ∧
      (sdk.virtualNetworksGet (sdk.resourceGroupsCreateOrUpdate w "go-azure"
        ⟨none, some location⟩).2 g.virtualNetworksClient rg "go-azure").1 = res ∧
      client = g.virtualNetworksClient ∧ name = "go-azure" := by
  unfold launchInstance at h
  simp only [Run.pre, Run.stop, findVnet_event] at h
  repeat' split at h
  all_goals simp at h
  all_goals
    first
    | (rcases h with h | h
       · obtain ⟨h1, h2, h3, h4⟩ := h
         subst h1 h2 h3
         exact ⟨_, ‹_›, ‹_›, ‹_›, h4.symm, rfl, rfl⟩
       · first
         | (have hp := place_createVnet _ _ _ _ _ _ _ _ h; simp [Event.place] at hp)
         | (have hp := place_publicIP _ _ _ _ _ _ _ _ _ h; simp [Event.place] at hp))
    | (obtain ⟨h1, h2, h3, h4⟩ := h
       subst h1 h2 h3
       exact ⟨_, ‹_›, ‹_›, ‹_›, h4.symm, rfl, rfl⟩)

/-- In a run of `launchInstance` in which the lookup returns an error, whatever
the error, the call that follows the lookup is the creation of the virtual
network; when it is submitted, its poll follows; and when the poll succeeds, the
creation of the public IP address follows. -/
theorem failed_lookup_then_create {σ : Type} (sdk : Sdk σ) (w : σ) (g : Globals)
    (cred : TokenCredential) (subscriptionID : String) (pubKey : Option String)
    (rgParam rgResp : ResourceGroup) (client : Option VirtualNetworksClient)
    (rg name : String) (err : GoError)
    (hrg : Event.resourceGroupsCreateOrUpdate "go-azure" rgParam (.ok rgResp) ∈
      (launchInstance sdk w g cred subscriptionID pubKey).trace)
    (hget : Event.virtualNetworksGet client rg name (.fail err) ∈
      (launchInstance sdk w g cred subscriptionID pubKey).trace) :
    ∃ vnetClient submitted rest,
      (launchInstance sdk w g cred subscriptionID pubKey).trace =
        Event.resourceGroupsCreateOrUpdate "go-azure" rgParam (.ok rgResp) ::
        Event.virtualNetworksGet client rg name (.fail err) ::
        Event.virtualNetworksBeginCreateOrUpdate vnetClient rg "go-azure" vnetParameters
          submitted :: rest ∧
      (∀ poller, submitted = .ok poller →
        ∃ polled rest2,
          rest = Event.virtualNetworksPollUntilDone poller polled :: rest2 ∧
          ∀ vnet, polled = .ok vnet →
            ∃ ipClient ipSubmitted rest3,
              rest2 = Event.publicIPAddressesBeginCreateOrUpdate ipClient rg "go-azure"
                publicIPParameters ipSubmitted :: rest3) := by
  obtain ⟨rgResp2, hf, hc, hn, hres, hcl, hname⟩ :=
    lookup_in_trace sdk w g cred subscriptionID pubKey client rg name _ hget
  subst hcl hname
  have hfound : ∃ e, (findVnet sdk (sdk.resourceGroupsCreateOrUpdate w "go-azure"
      ⟨none, some location⟩).2 rg "go-azure" g.virtualNetworksClient).1 = some (false, e) := by
    unfold findVnet
    simp only [hres]
    repeat' split
    all_goals exact ⟨_, rfl⟩
  obtain ⟨e0, hfound⟩ := hfound
  have hT : (launchInstance sdk w g cred subscriptionID pubKey).trace =
      Event.resourceGroupsCreateOrUpdate "go-azure" ⟨none, some location⟩ (.ok rgResp2) ::
      Event.virtualNetworksGet g.virtualNetworksClient rg "go-azure" (.fail err) ::
      (launchInstance_createVnet sdk (sdk.virtualNetworksGet (sdk.resourceGroupsCreateOrUpdate
        w "go-azure" ⟨none, some location⟩).2 g.virtualNetworksClient rg "go-azure").2 g cred
        subscriptionID pubKey rg).trace := by
    simp [launchInstance, hf, hc, hn, hfound, findVnet_event, hres, Run.pre]
  rw [hT] at hrg ⊢
  have hrg2 : rgParam = ⟨none, some location⟩ ∧ rgResp = rgResp2 := by
    simp at hrg
    rcases hrg with h | h
    · exact h
    · have hp := place_createVnet _ _ _ _ _ _ _ _ h
      simp [Event.place] at hp
  obtain ⟨h1, h2⟩ := hrg2
  subst h1 h2
  unfold launchInstance_createVnet
  simp only [Run.pre, Run.stop, hf]
  generalize sdk.newVirtualNetworksClient _ = vc
  refine ⟨_, _, _, rfl, ?_⟩
  intro poller hsub
  simp only [hsub]
  refine ⟨_, _, rfl, ?_⟩
  intro vnet hpoll
  simp only [hpoll]
  unfold launchInstance_publicIP
  simp only [Run.pre]
  exact ⟨_, _, _, rfl⟩

/-- C7: in a run of `launchInstance` in which the resource-group call succeeds
and the lookup fails with the error code ResourceNotFound, `findVnet` reports
the network absent with no error and the call that follows the lookup is the
creation of the virtual network, with address space 10.1.0.0/16 and two
subnets; when that submission succeeds its poll follows, and when the poll
succeeds the creation of the public IP address follows. -/
theorem launchInstance_not_found_creates_vnet {σ : Type} (sdk : Sdk σ) (w : σ) (g : Globals)
    (cred : TokenCredential) (subscriptionID : String) (pubKey : Option String)
    (rgParam rgResp : ResourceGroup) (client : Option VirtualNetworksClient)
    (rg name : String) (err : GoError)
    (hrg : Event.resourceGroupsCreateOrUpdate "go-azure" rgParam (.ok rgResp) ∈
      (launchInstance sdk w g cred subscriptionID pubKey).trace)
    (hget : Event.virtualNetworksGet client rg name (.fail err) ∈
      (launchInstance sdk w g cred subscriptionID pubKey).trace)
    (hcode : errorsAsResponseError err = some "ResourceNotFound") :
    (findVnet sdk (sdk.resourceGroupsCreateOrUpdate w "go-azure" rgParam).2 rg name
      client).1 = some (false, none) ∧
    vnetParameters.Properties.map (fun p => p.AddressPrefixes) = some ["10.1.0.0/16"] ∧
    vnetParameters.Properties.map (fun p => p.Subnets.length) = some 2 ∧
    ∃ vnetClient submitted rest,
      (launchInstance sdk w g cred subscriptionID pubKey).trace =
        Event.resourceGroupsCreateOrUpdate "go-azure" rgParam (.ok rgResp) ::
        Event.virtualNetworksGet client rg name (.fail err) ::
        Event.virtualNetworksBeginCreateOrUpdate vnetClient rg "go-azure" vnetParameters
          submitted :: rest ∧
      (∀ poller, submitted = .ok poller →
        ∃ polled rest2,
          rest = Event.virtualNetworksPollUntilDone poller polled :: rest2 ∧
          ∀ vnet, polled = .ok vnet →
            ∃ ipClient ipSubmitted rest3,
              rest2 = Event.publicIPAddressesBeginCreateOrUpdate ipClient rg "go-azure"
                publicIPParameters ipSubmitted :: rest3) := by
  refine ⟨?_, by rfl, by rfl, failed_lookup_then_create sdk w g cred subscriptionID pubKey
    rgParam rgResp client rg name err hrg hget⟩
  obtain ⟨rgResp2, hf, hc, hn, hres, hcl, hname⟩ :=
    lookup_in_trace sdk w g cred subscriptionID pubKey client rg name _ hget
  obtain ⟨_, _, _, hT, _⟩ := failed_lookup_then_create sdk w g cred subscriptionID pubKey
    rgParam rgResp client rg name err hrg hget
  subst hcl hname
  have hparam : rgParam = ⟨none, some location⟩ := by
    unfold launchInstance at hT
    simp only [hf, hc, hn, Run.pre] at hT
    simp at hT
    exact hT.1.1.symm
  subst hparam
  simp [findVnet, hres, hcode]

/-- The run of `launchInstance` from the preset package-level variables against
the scripted library where the network is absent: after the lookup that answers
ResourceNotFound come the creation of the virtual network, its poll and the
creation of the public IP address. -/
theorem launchInstance_not_found_creates_vnet_witness :
    (runPreset Script.vnetAbsent).trace.take 5 =
      [ Event.resourceGroupsCreateOrUpdate "go-azure" ⟨none, some location⟩
          (.ok ⟨some "go-azure", some location⟩),
        Event.virtualNetworksGet (some ⟨"sub"⟩) "go-azure" "go-azure"
          (.fail (.response "ResourceNotFound")),
        Event.virtualNetworksBeginCreateOrUpdate (some ⟨"sub"⟩) "go-azure" "go-azure"
          vnetParameters (.ok ⟨"vnet"⟩),
        Event.virtualNetworksPollUntilDone ⟨"vnet"⟩ (.ok createdVnet),
        Event.publicIPAddressesBeginCreateOrUpdate (some ⟨"sub"⟩) "go-azure" "go-azure"
          publicIPParameters (.ok ⟨"ip"⟩) ] ∧
    (findVnet (scripted Script.vnetAbsent) () "go-azure" "go-azure" (some ⟨"sub"⟩)).1 =
      some (false, none) :=
  ⟨by decide,
    (launchInstance_not_found_creates_vnet (scripted Script.vnetAbsent) ()
      Globals.preset cliCredential "sub" (some "public") ⟨none, some location⟩
      ⟨some "go-azure", some location⟩ (some ⟨"sub"⟩) "go-azure" "go-azure"
      (.response "ResourceNotFound") (by decide) (by decide) rfl).1⟩

/-- C2: in a run of `launchInstance` in which the resource-group call succeeds
and the lookup fails with an error other than ResourceNotFound, `findVnet`
reports that error, and the code goes on all the same: the call that follows
the lookup is the creation of the virtual network. -/
theorem launchInstance_lookup_error_ignored {σ : Type} (sdk : Sdk σ) (w : σ) (g : Globals)
    (cred : TokenCredential) (subscriptionID : String) (pubKey : Option String)
    (rgParam rgResp : ResourceGroup) (client : Option VirtualNetworksClient)
    (rg name : String) (err : GoError)
    (hrg : Event.resourceGroupsCreateOrUpdate "go-azure" rgParam (.ok rgResp) ∈
      (launchInstance sdk w g cred subscriptionID pubKey).trace)
    (hget : Event.virtualNetworksGet client rg name (.fail err) ∈
      (launchInstance sdk w g cred subscriptionID pubKey).trace)
    (hcode : errorsAsResponseError err ≠ some "ResourceNotFound") :
    (findVnet sdk (sdk.resourceGroupsCreateOrUpdate w "go-azure" rgParam).2 rg name
      client).1 = some (false, some err) ∧
    ∃ vnetClient submitted rest,
      (launchInstance sdk w g cred subscriptionID pubKey).trace =
        Event.resourceGroupsCreateOrUpdate "go-azure" rgParam (.ok rgResp) ::
        Event.virtualNetworksGet client rg name (.fail err) ::
        Event.virtualNetworksBeginCreateOrUpdate vnetClient rg "go-azure" vnetParameters
          submitted :: rest := by
  obtain ⟨rgResp2, hf, hc, hn, hres, hcl, hname⟩ :=
    lookup_in_trace sdk w g cred subscriptionID pubKey client rg name _ hget
  obtain ⟨c, s, r, hT, _⟩ := failed_lookup_then_create sdk w g cred subscriptionID pubKey
    rgParam rgResp client rg name err hrg hget
  refine ⟨?_, c, s, r, hT⟩
  subst hcl hname
  have hparam : rgParam = ⟨none, some location⟩ := by
    unfold launchInstance at hT
    simp only [hf, hc, hn, Run.pre] at hT
    simp at hT
    exact hT.1.1.symm
  subst hparam
  unfold findVnet
  simp only [hres]
  split
  · rename_i code hcode2
    by_cases hcd : code = "ResourceNotFound"
    · subst hcd
      exact absurd hcode2 hcode
    · simp [hcd]
  · rfl

/-- The run of the program, in a fresh process, against the scripted library
whose resource-group response carries an empty name: the lookup through the nil
handle returns the error of the empty name, `findVnet` reports it, and the
creation of the virtual network is called all the same; its own error is what
`launchInstance` returns. From the preset package-level variables, a lookup
that the service denies is followed by every create call and a nil return. -/
theorem launchInstance_lookup_error_ignored_witness :
    (findVnet (scripted Script.emptyGroupName) () "" "go-azure" none).1 =
      some (false, some (.plain "parameter resourceGroupName cannot be empty")) ∧
    (runScript Script.emptyGroupName).trace =
      [ Event.resourceGroupsCreateOrUpdate "go-azure" ⟨none, some location⟩
          (.ok ⟨some "", some location⟩),
        Event.virtualNetworksGet none "" "go-azure"
          (.fail (.plain "parameter resourceGroupName cannot be empty")),
        Event.virtualNetworksBeginCreateOrUpdate (some ⟨"sub"⟩) "" "go-azure"
          vnetParameters (.fail (.plain "parameter resourceGroupName cannot be empty")) ] ∧
    apiCalls (runPreset Script.lookupDenied).trace =
      [.resourceGroupCreateOrUpdate, .vnetGet, .vnetCreate, .publicIPCreate,
        .securityGroupCreate, .interfaceCreate, .virtualMachineCreate] ∧
    (runPreset Script.lookupDenied).outcome = .returned none :=
  ⟨(launchInstance_lookup_error_ignored (scripted Script.emptyGroupName) ()
      Globals.initial cliCredential "sub" (some "public") ⟨none, some location⟩
      ⟨some "", some location⟩ none "" "go-azure"
      (.plain "parameter resourceGroupName cannot be empty")
      (by decide) (by decide) (by decide)).1,
    by decide, by decide, by decide⟩
/-! ## The security group -/

/-- C9: in every run of `launchInstance`, a security-group creation request
carries exactly two rules, in this order: inbound, allow, TCP, destination port
22, priority 100; and inbound, allow, TCP, destination port 443, priority 200;
both with source address prefix 0.0.0.0/0. -/
theorem securityGroup_request_rules {σ : Type} (sdk : Sdk σ) (w : σ) (g : Globals)
    (cred : TokenCredential) (subscriptionID : String) (pubKey : Option String)
    (client : Option SecurityGroupsClient) (rg name : String) (param : SecurityGroup)
    (res : Result Poller)
    (h : Event.securityGroupsBeginCreateOrUpdate client rg name param res ∈
      (launchInstance sdk w g cred subscriptionID pubKey).trace) :
    ∃ ssh https, param.SecurityRules = [ssh, https] ∧
      ssh.Direction = .Inbound ∧ ssh.Access = .Allow ∧ ssh.Protocol = .TCP ∧
      ssh.DestinationPortRange = "22" ∧ ssh.Priority = 100 ∧
      ssh.SourceAddressPrefix = "0.0.0.0/0" ∧
      https.Direction = .Inbound ∧ https.Access = .Allow ∧ https.Protocol = .TCP ∧
      https.DestinationPortRange = "443" ∧ https.Priority = 200 ∧
      https.SourceAddressPrefix = "0.0.0.0/0" := by
  have hw := asWritten_launchInstance sdk w g cred subscriptionID pubKey _ h
  simp only [Event.asWritten] at hw
  obtain ⟨_, _, hp⟩ := hw
  subst hp
  exact ⟨_, _, rfl, rfl, rfl, rfl, rfl, rfl, rfl, rfl, rfl, rfl, rfl, rfl, rfl⟩

/-- The two rules of the security-group request in the run from the preset
package-level variables on the scripted library where the network is absent. -/
theorem securityGroup_request_rules_witness :
    Event.securityGroupsBeginCreateOrUpdate (some ⟨"sub"⟩) "go-azure" "go-azure"
        securityGroupParameters (.ok ⟨"sg"⟩) ∈ (runPreset Script.vnetAbsent).trace ∧
    ∃ ssh https, securityGroupParameters.SecurityRules = [ssh, https] ∧
      ssh.Direction = .Inbound ∧ ssh.Access = .Allow ∧ ssh.Protocol = .TCP ∧
      ssh.DestinationPortRange = "22" ∧ ssh.Priority = 100 ∧
      ssh.SourceAddressPrefix = "0.0.0.0/0" ∧
      https.Direction = .Inbound ∧ https.Access = .Allow ∧ https.Protocol = .TCP ∧
      https.DestinationPortRange = "443" ∧ https.Priority = 200 ∧
      https.SourceAddressPrefix = "0.0.0.0/0" :=
  ⟨by decide, securityGroup_request_rules (scripted Script.vnetAbsent) () Globals.preset
    cliCredential "sub" (some "public") (some ⟨"sub"⟩) "go-azure" "go-azure"
    securityGroupParameters (.ok ⟨"sg"⟩) (by decide)⟩

/-! ## The package-level client handles -/

/-- C10: in every run of `launchInstance` that starts with the package-level
variables nil, the lookup of the virtual network and every creation call for a
public IP address, a security group and a network interface goes through a nil
handle: `virtualNetworksClient` is assigned only after the lookup, the other
three are never assigned. From whatever package-level variables `launchInstance`
starts, those four calls go through the handles held at the start. -/
theorem launchInstance_calls_through_nil_handles {σ : Type} (sdk : Sdk σ) (w : σ)
    (cred : TokenCredential) (subscriptionID : String) (pubKey : Option String) :
    (∀ client rg name res, Event.virtualNetworksGet client rg name res ∈
      (launchInstance sdk w Globals.initial cred subscriptionID pubKey).trace →
      client = none) ∧
    (∀ client rg name param res,
      Event.publicIPAddressesBeginCreateOrUpdate client rg name param res ∈
      (launchInstance sdk w Globals.initial cred subscriptionID pubKey).trace →
      client = none) ∧
    (∀ client rg name param res,
      Event.securityGroupsBeginCreateOrUpdate client rg name param res ∈
      (launchInstance sdk w Globals.initial cred subscriptionID pubKey).trace →
      client = none) ∧
    (∀ client rg name param res,
      Event.interfacesBeginCreateOrUpdate client rg name param res ∈
      (launchInstance sdk w Globals.initial cred subscriptionID pubKey).trace →
      client = none) ∧
    (∀ g client rg name res, Event.virtualNetworksGet client rg name res ∈
      (launchInstance sdk w g cred subscriptionID pubKey).trace →
      client = g.virtualNetworksClient) ∧
    (∀ g client rg name param res,
      Event.publicIPAddressesBeginCreateOrUpdate client rg name param res ∈
      (launchInstance sdk w g cred subscriptionID pubKey).trace →
      client = g.publicIPAddressesClient) ∧
    (∀ g client rg name param res,
      Event.securityGroupsBeginCreateOrUpdate client rg name param res ∈
      (launchInstance sdk w g cred subscriptionID pubKey).trace →
      client = g.securityGroupClient) ∧
    (∀ g client rg name param res,
      Event.interfacesBeginCreateOrUpdate client rg name param res ∈
      (launchInstance sdk w g cred subscriptionID pubKey).trace →
      client = g.interfacesClient) := by
  refine ⟨?_, ?_, ?_, ?_, ?_, ?_, ?_, ?_⟩
  · intro client rg name res h
    exact (asWritten_launchInstance sdk w _ cred subscriptionID pubKey _ h).1
  · intro client rg name param res h
    exact (asWritten_launchInstance sdk w _ cred subscriptionID pubKey _ h).1
  · intro client rg name param res h
    exact (asWritten_launchInstance sdk w _ cred subscriptionID pubKey _ h).1
  · intro client rg name param res h
    exact (asWritten_launchInstance sdk w _ cred subscriptionID pubKey _ h).1
  · intro g client rg name res h
    exact (asWritten_launchInstance sdk w g cred subscriptionID pubKey _ h).1
  · intro g client rg name param res h
    exact (asWritten_launchInstance sdk w g cred subscriptionID pubKey _ h).1
  · intro g client rg name param res h
    exact (asWritten_launchInstance sdk w g cred subscriptionID pubKey _ h).1
  · intro g client rg name param res h
    exact (asWritten_launchInstance sdk w g cred subscriptionID pubKey _ h).1

/-- The run of the program, in a fresh process, against the scripted library
where every call that reaches the service succeeds: the lookup goes through the
nil `virtualNetworksClient`, panics there, and the run ends. -/
theorem launchInstance_calls_through_nil_handles_witness :
    (runScript Script.vnetAbsent).trace =
      [ Event.resourceGroupsCreateOrUpdate "go-azure" ⟨none, some location⟩
          (.ok ⟨some "go-azure", some location⟩),
        Event.virtualNetworksGet none "go-azure" "go-azure" .panic ] ∧
    (runScript Script.vnetAbsent).outcome = .panicked ∧
    (none : Option VirtualNetworksClient) = none :=
  ⟨by decide, by decide,
    (launchInstance_calls_through_nil_handles (scripted Script.vnetAbsent) () cliCredential
      "sub" (some "public")).1 none "go-azure" "go-azure" .panic (by decide)⟩

/-! ## The subnet of the network interface -/

/-- An event that submits an API call has the place of that call. -/
theorem place_of_apiCall (e : Event) (a : ApiCall) (h : e.apiCall = some a) :
    e.place = a.place := by
  cases e <;> simp [Event.apiCall] at h <;> subst h <;> rfl

/-- With a virtual network whose first subnet ID cannot be read, the steps from
the public IP address on end before the network interface: in a panic or in an
error of the public IP address or of the security group. -/
theorem publicIP_without_subnet {σ : Type} (sdk : Sdk σ) (w : σ) (g : Globals)
    (cred : TokenCredential) (subscriptionID : String) (pubKey : Option String)
    (rgName : String) (vnetResp : VirtualNetwork) (hs : firstSubnetID vnetResp = none) :
    ((launchInstance_publicIP sdk w g cred subscriptionID pubKey rgName vnetResp).outcome =
        .panicked ∨
      ∃ err, (launchInstance_publicIP sdk w g cred subscriptionID pubKey rgName
        vnetResp).outcome = .returned (some err)) ∧
    ∀ e ∈ (launchInstance_publicIP sdk w g cred subscriptionID pubKey rgName vnetResp).trace,
      e.place ≤ 8 := by
  unfold launchInstance_publicIP launchInstance_securityGroup launchInstance_interface
  simp only [Run.pre, Run.stop, hs]
  repeat' split
  all_goals simp [Event.place]

/-- C4: in every run of `launchInstance` in which the lookup of the virtual
network succeeds, no virtual-network creation call is issued, and no
network-interface creation call is issued either: `vnetResp` is still the zero
value at line 236, and the run ends in a panic there, or earlier in a panic or
an error of the public IP address or the security group. -/
theorem launchInstance_found_never_reaches_interface {σ : Type} (sdk : Sdk σ) (w : σ)
    (g : Globals) (cred : TokenCredential) (subscriptionID : String)
    (pubKey : Option String) (client : Option VirtualNetworksClient) (rg name : String)
    (vnet : VirtualNetwork)
    (hget : Event.virtualNetworksGet client rg name (.ok vnet) ∈
      (launchInstance sdk w g cred subscriptionID pubKey).trace) :
    ApiCall.vnetCreate ∉ apiCalls (launchInstance sdk w g cred subscriptionID pubKey).trace ∧
    ApiCall.interfaceCreate ∉
      apiCalls (launchInstance sdk w g cred subscriptionID pubKey).trace ∧
    ((launchInstance sdk w g cred subscriptionID pubKey).outcome = .panicked ∨
      ∃ err, (launchInstance sdk w g cred subscriptionID pubKey).outcome =
        .returned (some err)) := by
  obtain ⟨rgResp, hf, hc, hn, hres, hcl, hname⟩ :=
    lookup_in_trace sdk w g cred subscriptionID pubKey client rg name _ hget
  have hz : firstSubnetID VirtualNetwork.zero = none := rfl
  have hR : launchInstance sdk w g cred subscriptionID pubKey =
      Run.pre (.resourceGroupsCreateOrUpdate "go-azure" ⟨none, some location⟩ (.ok rgResp))
        (Run.pre (.virtualNetworksGet g.virtualNetworksClient rg "go-azure" (.ok vnet))
          (launchInstance_publicIP sdk (sdk.virtualNetworksGet
            (sdk.resourceGroupsCreateOrUpdate w "go-azure" ⟨none, some location⟩).2
            g.virtualNetworksClient rg "go-azure").2 g cred subscriptionID pubKey rg
            VirtualNetwork.zero)) := by
    simp [launchInstance, hf, hc, hn, findVnet, hres]
  obtain ⟨ho, hp⟩ := publicIP_without_subnet sdk (sdk.virtualNetworksGet
    (sdk.resourceGroupsCreateOrUpdate w "go-azure" ⟨none, some location⟩).2
    g.virtualNetworksClient rg "go-azure").2 g cred subscriptionID pubKey rg
    VirtualNetwork.zero hz
  have hlo := place_publicIP sdk (sdk.virtualNetworksGet
    (sdk.resourceGroupsCreateOrUpdate w "go-azure" ⟨none, some location⟩).2
    g.virtualNetworksClient rg "go-azure").2 g cred subscriptionID pubKey rg
    VirtualNetwork.zero
  rw [hR]
  have key : ∀ a : ApiCall, a.place = 3 ∨ a.place = 9 →
      a ∉ apiCalls (Run.pre (.resourceGroupsCreateOrUpdate "go-azure" ⟨none, some location⟩
        (.ok rgResp)) (Run.pre (.virtualNetworksGet g.virtualNetworksClient rg "go-azure"
          (.ok vnet)) (launchInstance_publicIP sdk (sdk.virtualNetworksGet
            (sdk.resourceGroupsCreateOrUpdate w "go-azure" ⟨none, some location⟩).2
            g.virtualNetworksClient rg "go-azure").2 g cred subscriptionID pubKey rg
            VirtualNetwork.zero))).trace := by
    intro a ha hmem
    simp only [apiCalls, List.mem_filterMap, Run.pre, List.mem_cons] at hmem
    obtain ⟨e, he, hea⟩ := hmem
    have hpl := place_of_apiCall e a hea
    rcases he with he | he | he
    · subst he
      simp [Event.place] at hpl
      omega
    · subst he
      simp [Event.place] at hpl
      omega
    · have h1 := hp e he
      have h2 := hlo e he
      omega
  exact ⟨key _ (Or.inl rfl), key _ (Or.inr rfl), by simpa [Run.pre] using ho⟩

/-- The run from the preset package-level variables on the scripted library
where the network is present and every call succeeds: it panics at line 236,
after the security group and before the network interface. The run of the
program in a fresh process does not reach the network interface either. -/
theorem launchInstance_found_never_reaches_interface_witness :
    ApiCall.interfaceCreate ∉ apiCalls (runPreset Script.vnetPresent).trace ∧
    (runPreset Script.vnetPresent).outcome = .panicked ∧
    apiCalls (runPreset Script.vnetPresent).trace =
      [.resourceGroupCreateOrUpdate, .vnetGet, .publicIPCreate, .securityGroupCreate] ∧
    ApiCall.interfaceCreate ∉ apiCalls (runScript Script.vnetPresent).trace ∧
    (runScript Script.vnetPresent).outcome = .panicked :=
  ⟨(launchInstance_found_never_reaches_interface (scripted Script.vnetPresent) ()
      Globals.preset cliCredential "sub" (some "public") (some ⟨"sub"⟩) "go-azure" "go-azure"
      createdVnet (by decide)).2.1, by decide, by decide, by decide, by decide⟩

/-! ## The run of the program stops at the lookup -/

/-- A resource-group event in a run of `launchInstance` is the call of line 98:
the client factory was built, the request is the one of lines 94-96 and the
result in the event is how the call ended. -/
theorem resourceGroup_in_trace {σ : Type} (sdk : Sdk σ) (w : σ) (g : Globals)
    (cred : TokenCredential) (subscriptionID : String) (pubKey : Option String)
    (name : String) (rgParam : ResourceGroup) (res : Result ResourceGroup)
    (h : Event.resourceGroupsCreateOrUpdate name rgParam res ∈
      (launchInstance sdk w g cred subscriptionID pubKey).trace) :
    sdk.newClientFactory subscriptionID cred = none ∧ name = "go-azure" ∧
    rgParam = ⟨none, some location⟩ ∧
    (sdk.resourceGroupsCreateOrUpdate w "go-azure" ⟨none, some location⟩).1 = res := by
  unfold launchInstance at h
  simp only [Run.pre, Run.stop, findVnet_event] at h
  repeat' split at h
  all_goals simp at h
  all_goals
    first
    | (rcases h with h | h
       · obtain ⟨h1, h2, h3⟩ := h
         subst h1 h2
         exact ⟨‹_›, rfl, rfl, h3.symm⟩
       · first
         | (have hp := place_createVnet _ _ _ _ _ _ _ _ h; simp [Event.place] at hp)
         | (have hp := place_publicIP _ _ _ _ _ _ _ _ _ h; simp [Event.place] at hp))
    | (obtain ⟨h1, h2, h3⟩ := h
       subst h1 h2
       exact ⟨‹_›, rfl, rfl, h3.symm⟩)

/-- C5: in every run of the program (`launchInstance` started with the
package-level variables nil) in which the resource-group call succeeds with a
name that is not empty, the trace of API calls is the resource-group call and
the lookup, and no more: the lookup goes through the nil `virtualNetworksClient`
and panics, whether the network is absent or present. -/
theorem launchInstance_fresh_run_stops_at_lookup {σ : Type} (sdk : Sdk σ) (w : σ)
    (cred : TokenCredential) (subscriptionID : String) (pubKey : Option String)
    (rgParam rgResp : ResourceGroup) (rg : String)
    (hrg : Event.resourceGroupsCreateOrUpdate "go-azure" rgParam (.ok rgResp) ∈
      (launchInstance sdk w Globals.initial cred subscriptionID pubKey).trace)
    (hname : rgResp.Name = some rg) (hne : rg ≠ "") :
    (launchInstance sdk w Globals.initial cred subscriptionID pubKey).trace =
      [ Event.resourceGroupsCreateOrUpdate "go-azure" rgParam (.ok rgResp),
        Event.virtualNetworksGet none rg "go-azure" .panic ] ∧
    apiCalls (launchInstance sdk w Globals.initial cred subscriptionID pubKey).trace =
      [.resourceGroupCreateOrUpdate, .vnetGet] ∧
    (launchInstance sdk w Globals.initial cred subscriptionID pubKey).outcome = .panicked := by
  obtain ⟨hf, -, hp, hc⟩ := resourceGroup_in_trace sdk w Globals.initial cred subscriptionID
    pubKey _ _ _ hrg
  subst hp
  simp [launchInstance, hf, hc, hname, findVnet, Sdk.virtualNetworksGet, throughHandle, hne,
    Globals.initial, Run.pre, Run.stop, apiCalls, Event.apiCall]

/-- The runs of the program against the scripted libraries where every call
that reaches the service succeeds, with the network absent and with it
present: the resource-group call, the lookup, a panic. -/
theorem launchInstance_fresh_run_stops_at_lookup_witness :
    apiCalls (runScript Script.vnetAbsent).trace = [.resourceGroupCreateOrUpdate, .vnetGet] ∧
    (runScript Script.vnetAbsent).outcome = .panicked ∧
    apiCalls (runScript Script.vnetPresent).trace = [.resourceGroupCreateOrUpdate, .vnetGet] ∧
    (runScript Script.vnetPresent).outcome = .panicked :=
  have h := launchInstance_fresh_run_stops_at_lookup (scripted Script.vnetAbsent) ()
    cliCredential "sub" (some "public") ⟨none, some location⟩
    ⟨some "go-azure", some location⟩ "go-azure" (by decide) rfl (by decide)
  ⟨h.2.1, h.2.2, by decide, by decide⟩
/-! ## A failed step -/

/-- The `return nil` of lines 251-258, which no run of the program reaches: from
the preset package-level variables, a rejected submission of the network
interface makes `launchInstance` return nil. -/
theorem preset_interface_failure_returns_nil :
    (runPreset Script.nicRejected).outcome = .returned none ∧
    ApiCall.virtualMachineCreate ∉ apiCalls (runPreset Script.nicRejected).trace := by
  decide

/-! ## Two runs against the platform store -/

/-- Putting a key the store holds leaves the store as it is. -/
theorem Store.put_of_mem (s : Store) (k : Key) (h : k ∈ s) : s.put k = s := by
  simp [Store.put, h]

/-- The keys of a store after a put. -/
theorem Store.mem_put (s : Store) (k j : Key) : j ∈ s.put k ↔ j ∈ s ∨ j = k := by
  unfold Store.put
  split
  · constructor
    · intro h; exact Or.inl h
    · rintro (h | h)
      · exact h
      · subst h; assumption
  · simp

/-- A put adds one to the count of its kind when the key is new, and nothing
otherwise. -/
theorem Store.count_put (s : Store) (k : Key) (kind : Kind) :
    (s.put k).count kind =
      s.count kind + (if k ∈ s then 0 else if k.kind = kind then 1 else 0) := by
  unfold Store.put Store.count
  by_cases h : k ∈ s
  · simp [h]
  · by_cases hk : k.kind = kind
    · simp [h, hk, List.filter_append]
    · simp [h, hk, List.filter_append]

/-- Create-or-update of the pipeline's resources, whatever their kinds and
however often, adds one resource of a kind when the store did not hold the
pipeline's resource of that kind and one was put, and nothing otherwise. -/
theorem Store.count_putAll (kinds : List Kind) (s : Store) (kind : Kind) :
    (s.putAll kinds).count kind =
      s.count kind +
        (if pipelineKey kind ∈ s then 0 else if kind ∈ kinds then 1 else 0) := by
  induction kinds generalizing s with
  | nil => simp [Store.putAll]
  | cons k ks ih =>
    have hstep : s.putAll (k :: ks) = (s.put (pipelineKey k)).putAll ks := rfl
    rw [hstep, ih, Store.count_put]
    have hmem : pipelineKey kind ∈ s.put (pipelineKey k) ↔
        pipelineKey kind ∈ s ∨ kind = k := by
      rw [Store.mem_put]
      simp [pipelineKey]
    have hkk : (pipelineKey k).kind = k := rfl
    rw [hkk]
    by_cases h1 : pipelineKey kind ∈ s
    · by_cases h2 : k = kind
      · subst h2
        simp [h1, hmem]
      · by_cases h3 : pipelineKey k ∈ s <;> simp [h1, h2, h3, hmem]
    · by_cases h2 : k = kind
      · subst h2
        simp [h1, hmem]
      · have h2' : ¬ kind = k := fun h => h2 h.symm
        by_cases h3 : pipelineKey k ∈ s <;> simp [h1, h2, h2', h3, hmem]

/-- Two rounds of puts are one. -/
theorem Store.putAll_append (s : Store) (ks1 ks2 : List Kind) :
    (s.putAll ks1).putAll ks2 = s.putAll (ks1 ++ ks2) := by
  simp [Store.putAll, List.foldl_append]

/-- The store after the virtual-machine step is the store before it, after
puts of resources of the pipeline. -/
theorem virtualMachine_world (s : Store) (g : Globals) (cred : TokenCredential)
    (subscriptionID : String) (pubKey : Option String) (ntResp : CreatedResource) :
    ∃ kinds, (launchInstance_virtualMachine storeSdk s g cred subscriptionID pubKey
      "go-azure" ntResp).world = s.putAll kinds := by
  unfold launchInstance_virtualMachine
  simp only [Run.pre, Run.stop]
  have h1 : storeSdk.newClientFactory subscriptionID cred = none := rfl
  simp only [h1]
  cases ntResp.ID with
  | none => exact ⟨[], rfl⟩
  | some nicID => exact ⟨[.virtualMachine], rfl⟩

/-- The store after the steps from the network interface on. -/
theorem interface_world (s : Store) (g : Globals) (cred : TokenCredential)
    (subscriptionID : String) (pubKey : Option String) (vnetResp : VirtualNetwork)
    (ipResp sgResp : CreatedResource) :
    ∃ kinds, (launchInstance_interface storeSdk s g cred subscriptionID pubKey
      "go-azure" vnetResp ipResp sgResp).world = s.putAll kinds := by
  unfold launchInstance_interface
  simp only [Run.pre, Run.stop]
  cases firstSubnetID vnetResp with
  | none => exact ⟨[], rfl⟩
  | some subnetID =>
    cases ipResp.ID with
    | none => exact ⟨[], rfl⟩
    | some ipID =>
      cases sgResp.ID with
      | none => exact ⟨[], rfl⟩
      | some sgID =>
        cases g.interfacesClient with
        | none => exact ⟨[], rfl⟩
        | some client =>
          obtain ⟨kinds, h⟩ := virtualMachine_world (s.put (pipelineKey .interface)) g cred
            subscriptionID pubKey ⟨some ("go-azure" ++ "/networkInterfaces/" ++ "go-azure")⟩
          exact ⟨.interface :: kinds, h⟩

/-- The store after the steps from the security group on. -/
theorem securityGroup_world (s : Store) (g : Globals) (cred : TokenCredential)
    (subscriptionID : String) (pubKey : Option String) (vnetResp : VirtualNetwork)
    (ipResp : CreatedResource) :
    ∃ kinds, (launchInstance_securityGroup storeSdk s g cred subscriptionID pubKey
      "go-azure" vnetResp ipResp).world = s.putAll kinds := by
  unfold launchInstance_securityGroup
  simp only [Run.pre, Run.stop]
  cases g.securityGroupClient with
  | none => exact ⟨[], rfl⟩
  | some client =>
    obtain ⟨kinds, h⟩ := interface_world (s.put (pipelineKey .securityGroup)) g cred
      subscriptionID pubKey vnetResp ipResp
      ⟨some ("go-azure" ++ "/networkSecurityGroups/" ++ "go-azure")⟩
    exact ⟨.securityGroup :: kinds, h⟩

/-- The store after the steps from the public IP address on. -/
theorem publicIP_world (s : Store) (g : Globals) (cred : TokenCredential)
    (subscriptionID : String) (pubKey : Option String) (vnetResp : VirtualNetwork) :
    ∃ kinds, (launchInstance_publicIP storeSdk s g cred subscriptionID pubKey
      "go-azure" vnetResp).world = s.putAll kinds := by
  unfold launchInstance_publicIP
  simp only [Run.pre, Run.stop]
  cases g.publicIPAddressesClient with
  | none => exact ⟨[], rfl⟩
  | some client =>
    obtain ⟨kinds, h⟩ := securityGroup_world (s.put (pipelineKey .publicIP)) g cred
      subscriptionID pubKey vnetResp ⟨some ("go-azure" ++ "/publicIPAddresses/" ++ "go-azure")⟩
    exact ⟨.publicIP :: kinds, h⟩

/-- The store after the creation branch. -/
theorem createVnet_world (s : Store) (g : Globals) (cred : TokenCredential)
    (subscriptionID : String) (pubKey : Option String) :
    ∃ kinds, (launchInstance_createVnet storeSdk s g cred subscriptionID pubKey
      "go-azure").world = s.putAll kinds := by
  obtain ⟨kinds, h⟩ := publicIP_world (s.put (pipelineKey .virtualNetwork))
    { g with networkClientFactory := some ⟨subscriptionID⟩,
             virtualNetworksClient := some ⟨subscriptionID⟩ } cred subscriptionID pubKey
    createdVnet
  exact ⟨.virtualNetwork :: kinds, h⟩

/-- A run against the store, from whatever package-level variables and however
it ends, puts the resource group and then only resources of the pipeline. -/
theorem runOnStore_world (g : Globals) (s : Store) :
    ∃ kinds, (runOnStore g s).world = s.putAll (.resourceGroup :: kinds) := by
  unfold runOnStore launchInstance
  have h1 : storeSdk.newClientFactory "sub" cliCredential = none := rfl
  simp only [Run.pre, Run.stop, h1, findVnet_event]
  have h2 : (storeSdk.resourceGroupsCreateOrUpdate s "go-azure"
      ⟨none, some location⟩) =
      (.ok ⟨some "go-azure", some location⟩, s.put (pipelineKey .resourceGroup)) := rfl
  simp only [h2]
  have hw : (storeSdk.virtualNetworksGet (s.put (pipelineKey .resourceGroup))
      g.virtualNetworksClient "go-azure" "go-azure").2 =
      s.put (pipelineKey .resourceGroup) := by
    unfold Sdk.virtualNetworksGet throughHandle
    cases g.virtualNetworksClient with
    | none => rfl
    | some c =>
      simp only [storeSdk]
      repeat' split
      all_goals rfl
  simp only [hw]
  cases hf : (findVnet storeSdk (s.put (pipelineKey .resourceGroup)) "go-azure" "go-azure"
      g.virtualNetworksClient).1 with
  | none => exact ⟨[], rfl⟩
  | some r =>
    obtain ⟨found, e⟩ := r
    cases found with
    | false =>
      obtain ⟨kinds, h⟩ := createVnet_world (s.put (pipelineKey .resourceGroup)) g
        cliCredential "sub" (some "public")
      refine ⟨kinds, ?_⟩
      simp only [Bool.not_false, if_true]
      exact h
    | true =>
      obtain ⟨kinds, h⟩ := publicIP_world (s.put (pipelineKey .resourceGroup)) g
        cliCredential "sub" (some "public") VirtualNetwork.zero
      refine ⟨kinds, ?_⟩
      simp only [Bool.not_true, Bool.false_eq_true, if_false]
      exact h

/-- C8, amended: over the store model, for every initial store and whatever the
package-level handles hold when each run starts, two runs in succession leave,
of every kind, at most one more resource than before the first run, and none
more of a kind whose resource named go-azure in the resource group go-azure the
store already held: every create call names its resource go-azure, and
create-or-update of a held key updates it in place. The resource group is put
by the first run and reused by the second: exactly one more when the store did
not hold it, none otherwise. -/
theorem two_runs_on_store (g1 g2 : Globals) (s : Store) (kind : Kind) :
    s.count kind ≤ (secondRunOnStore g1 g2 s).world.count kind ∧
    (secondRunOnStore g1 g2 s).world.count kind ≤
      s.count kind + (if pipelineKey kind ∈ s then 0 else 1) ∧
    (runOnStore g1 s).world.count .resourceGroup =
      s.count .resourceGroup + (if pipelineKey .resourceGroup ∈ s then 0 else 1) ∧
    (secondRunOnStore g1 g2 s).world.count .resourceGroup =
      (runOnStore g1 s).world.count .resourceGroup := by
  obtain ⟨ks1, h1⟩ := runOnStore_world g1 s
  obtain ⟨ks2, h2⟩ := runOnStore_world g2 (runOnStore g1 s).world
  have h3 : (secondRunOnStore g1 g2 s).world =
      s.putAll ((.resourceGroup :: ks1) ++ (.resourceGroup :: ks2)) := by
    unfold secondRunOnStore
    rw [h2, h1, Store.putAll_append]
  rw [h3, h1]
  simp only [Store.count_putAll]
  refine ⟨by omega, ?_, ?_, ?_⟩
  · split
    · omega
    · split <;> omega
  · simp
  · simp

/-- C8, as stated, fails on the empty store: two runs of the program leave no
public IP address, no security group and no network interface, for both stop at
the lookup and the store holds the resource group alone; and two runs from the
preset package-level variables leave one of each, not two. -/
theorem two_runs_on_store_counterexample :
    ¬ ((secondRunOnStore Globals.initial Globals.initial []).world.count .publicIP =
        Store.count [] .publicIP + 2 ∧
      (secondRunOnStore Globals.initial Globals.initial []).world.count .securityGroup =
        Store.count [] .securityGroup + 2 ∧
      (secondRunOnStore Globals.initial Globals.initial []).world.count .interface =
        Store.count [] .interface + 2) ∧
    ¬ ((secondRunOnStore Globals.preset Globals.preset []).world.count .publicIP =
        Store.count [] .publicIP + 2 ∧
      (secondRunOnStore Globals.preset Globals.preset []).world.count .securityGroup =
        Store.count [] .securityGroup + 2 ∧
      (secondRunOnStore Globals.preset Globals.preset []).world.count .interface =
        Store.count [] .interface + 2) ∧
    (secondRunOnStore Globals.initial Globals.initial []).world =
      [pipelineKey .resourceGroup] ∧
    (secondRunOnStore Globals.preset Globals.preset []).world =
      [pipelineKey .resourceGroup, pipelineKey .virtualNetwork, pipelineKey .publicIP,
        pipelineKey .securityGroup, pipelineKey .interface, pipelineKey .virtualMachine] := by
  decide

end GoAzure
